import Mathlib

set_option maxRecDepth 8192

/-!
Verification of the ACME Transaction System ingestion and aggregation core.

The definitions below are a shallow embedding of the Python sources:

* `src/app/csv_importer.py`   (validate_row, import_csv)
* `src/app/queue_consumer.py` (validate_message, insert_transaction,
                               save_rejected_record, callback)
* `src/app/reporting.py`      (get_payments_by_user, get_daily_totals)
* `src/app/models.py`         (Transaction, TransactionStatus, RejectedRecord)

Modelling conventions:

* Python `float` values are modelled exactly: a `PyFloat` is either a rational
  number or one of the non-finite values inf, -inf, nan.  Rounding of decimal
  literals and overflow of huge exponents to infinity are not modelled.
* Python dicts with string keys and string values are modelled as association
  lists (`Row`).  Field values are modelled as strings, which is exact for the
  CSV path and covers the string-valued messages of the queue path.
* Library calls of the Python standard library (`float(...)`,
  `datetime.fromisoformat`, `str.replace`, `str(dict)`, `csv.DictReader` on a
  quote-free line) are modelled by executable Lean functions below, restricted
  to the input shapes the repository exercises.
* Raised exceptions are modelled with `Except String`; a caught exception turns
  into the string that Python `str(e)` would produce.
* The durable database is a `DB` value; a SQLAlchemy session is modelled by
  pending lists that are appended to the durable state only on commit.
-/

/-- Character is an ASCII decimal digit. -/
def isDigitChar (c : Char) : Bool := ('0' ≤ c) && (c ≤ '9')

/-- Numeric value of an ASCII digit character. -/
def digitVal (c : Char) : Nat := c.toNat - 48

/-- Numeric value of a digit string, most significant digit first. -/
def digitsToNat (l : List Char) : Nat := l.foldl (fun a c => a * 10 + digitVal c) 0

/-- ASCII lowercase conversion of one character. -/
def toLowerChar (c : Char) : Char :=
  if ('A' ≤ c) && (c ≤ 'Z') then Char.ofNat (c.toNat + 32) else c

/-- ASCII whitespace test used when modelling Python `str.strip`. -/
def isWsChar (c : Char) : Bool := (c == ' ') || (c == '\t') || (c == '\n') || (c == '\r')

/-- Leading and trailing whitespace removal, modelling Python `str.strip()`. -/
def stripWs (l : List Char) : List Char :=
  ((l.dropWhile isWsChar).reverse.dropWhile isWsChar).reverse

/-- Optional leading sign: returns (isNegative, remainder). -/
def splitSign : List Char → Bool × List Char
  | '+' :: r => (false, r)
  | '-' :: r => (true, r)
  | r => (false, r)

/-- Splits a character list at the first exponent marker e or E. -/
def splitOnExp : List Char → List Char × Option (List Char)
  | [] => ([], none)
  | c :: r =>
    if (c == 'e') || (c == 'E') then ([], some r)
    else
      let (m, x) := splitOnExp r
      (c :: m, x)

/-- Splits a character list at the first decimal point. -/
def splitOnDot : List Char → List Char × Option (List Char)
  | [] => ([], none)
  | c :: r =>
    if c == '.' then ([], some r)
    else
      let (m, x) := splitOnDot r
      (c :: m, x)

/-- Python float value: a finite rational or one of the non-finite values. -/
inductive PyFloat where
  | finite (q : ℚ)
  | inf
  | negInf
  | nan
deriving DecidableEq, Repr

/-- Parses the decimal-literal part accepted by Python `float`:
digits with an optional fraction and an optional signed exponent.  The value
is assembled with `mkRat` over integer numerator and power-of-ten denominator
(the exact rational the literal denotes). -/
def parseDecimal (l : List Char) : Option ℚ :=
  let (mant, expPart) := splitOnExp l
  let (ip, fpOpt) := splitOnDot mant
  let fp := fpOpt.getD []
  if ip.all isDigitChar && fp.all isDigitChar && (!ip.isEmpty || !fp.isEmpty) then
    let m : Nat := digitsToNat ip * 10 ^ fp.length + digitsToNat fp
    match expPart with
    | none => some (mkRat m (10 ^ fp.length))
    | some ec =>
      let (eneg, ed) := splitSign ec
      if !ed.isEmpty && ed.all isDigitChar then
        let ex := digitsToNat ed
        some (if eneg then mkRat m (10 ^ (fp.length + ex))
              else mkRat (m * 10 ^ ex) (10 ^ fp.length))
      else none
  else none

/-- Models CPython `float(str)`: strips whitespace, accepts an optional sign
followed by inf, infinity, nan (case-insensitive) or a decimal literal. -/
def pyFloatCore (s : String) : Option PyFloat :=
  let l := stripWs s.toList
  let (neg, r) := splitSign l
  let low := r.map toLowerChar
  if (low == "inf".toList) || (low == "infinity".toList) then
    some (if neg then .negInf else .inf)
  else if low == "nan".toList then some .nan
  else
    match parseDecimal r with
    | some q => some (.finite (if neg then -q else q))
    | none => none

/-- Models Python `float(s)` including the `ValueError` text raised on failure. -/
def pyFloat (s : String) : Except String PyFloat :=
  match pyFloatCore s with
  | some v => .ok v
  | none => .error ("could not convert string to float: \x27" ++ s ++ "\x27")

/-- Comparison of a Python float with an integer literal threshold,
modelling `float(x) > n`. -/
def PyFloat.gtNat (x : PyFloat) (n : Nat) : Bool :=
  match x with
  | .finite q => (n : ℚ) < q
  | .inf => true
  | .negInf => false
  | .nan => false

/-- Exact rational addition written with `mkRat` over the cross-multiplied
numerators (equal to `a + b`). -/
def ratAdd (a b : ℚ) : ℚ := mkRat (a.num * (b.den : ℤ) + b.num * (a.den : ℤ)) (a.den * b.den)

/-- Addition of Python floats (exact on finite values). -/
def PyFloat.add : PyFloat → PyFloat → PyFloat
  | .nan, _ => .nan
  | _, .nan => .nan
  | .inf, .negInf => .nan
  | .negInf, .inf => .nan
  | .inf, _ => .inf
  | _, .inf => .inf
  | .negInf, _ => .negInf
  | _, .negInf => .negInf
  | .finite a, .finite b => .finite (ratAdd a b)

/-- Sum of a list of Python floats starting from 0.0, modelling SQL `SUM`. -/
def pfSum (l : List PyFloat) : PyFloat := l.foldl PyFloat.add (.finite 0)

/-- Naive datetime value as produced by `datetime.fromisoformat` after the
importer normalises a trailing Z to +00:00.  Fractional seconds and the UTC
offset are validated during parsing and then dropped; no claim observes them. -/
structure PyDateTime where
  year : Nat
  month : Nat
  day : Nat
  hour : Nat
  minute : Nat
  second : Nat
deriving DecidableEq, Repr

/-- Calendar day, the value of SQL `date(timestamp)`: (year, month, day). -/
abbrev Day := Nat × Nat × Nat

/-- Date component of a datetime. -/
def PyDateTime.dateOf (t : PyDateTime) : Day := (t.year, t.month, t.day)

/-- Lexicographic non-strict comparison of equal-length numeric field lists;
models comparison of Python datetime and date values. -/
def lexLe : List Nat → List Nat → Bool
  | [], _ => true
  | _ :: _, [] => false
  | a :: as, b :: bs => if a < b then true else if b < a then false else lexLe as bs

/-- Lexicographic strict comparison of equal-length numeric field lists. -/
def lexLt : List Nat → List Nat → Bool
  | [], [] => false
  | [], _ :: _ => true
  | _ :: _, [] => false
  | a :: as, b :: bs => if a < b then true else if b < a then false else lexLt as bs

/-- Comparison key of a datetime. -/
def PyDateTime.fields (t : PyDateTime) : List Nat :=
  [t.year, t.month, t.day, t.hour, t.minute, t.second]

/-- Non-strict datetime comparison (Python compares field tuples). -/
def PyDateTime.leb (a b : PyDateTime) : Bool := lexLe a.fields b.fields

/-- Strict datetime comparison. -/
def PyDateTime.ltb (a b : PyDateTime) : Bool := lexLt a.fields b.fields

/-- Comparison key of a calendar day. -/
def Day.fields (d : Day) : List Nat := [d.1, d.2.1, d.2.2]

/-- Python `datetime.date` value used as a reporting range bound. -/
structure PyDate where
  year : Nat
  month : Nat
  day : Nat
deriving DecidableEq, Repr

/-- Midnight at a given date: the datetime a SQL comparison of a timestamp
column against a date parameter coerces the date to. -/
def PyDate.midnight (d : PyDate) : PyDateTime :=
  ⟨d.year, d.month, d.day, 0, 0, 0⟩

/-- Leap-year test of the Gregorian calendar. -/
def isLeap (y : Nat) : Bool := (y % 4 == 0 && y % 100 != 0) || y % 400 == 0

/-- Number of days of a month. -/
def daysInMonth (y m : Nat) : Nat :=
  if m == 2 then (if isLeap y then 29 else 28)
  else if m == 4 || m == 6 || m == 9 || m == 11 then 30
  else 31

/-- Reads exactly n leading digits as a number, returning the remainder. -/
def readDigitsN : Nat → List Char → Option (Nat × List Char)
  | 0, r => some (0, r)
  | _ + 1, [] => none
  | n + 1, c :: r =>
    if isDigitChar c then
      match readDigitsN n r with
      | some (v, rest) => some (digitVal c * 10 ^ n + v, rest)
      | none => none
    else none

/-- Expects a given character at the head of the input. -/
def expectChar (c : Char) : List Char → Option (List Char)
  | [] => none
  | x :: r => if x == c then some r else none

/-- Parses the date part YYYY-MM-DD of an ISO string. -/
def parseIsoDate (l : List Char) : Option (Nat × Nat × Nat × List Char) := do
  let (y, r1) ← readDigitsN 4 l
  let r2 ← expectChar '-' r1
  let (m, r3) ← readDigitsN 2 r2
  let r4 ← expectChar '-' r3
  let (d, r5) ← readDigitsN 2 r4
  pure (y, m, d, r5)

/-- Parses HH:MM with optional :SS and optional fractional digits. -/
def parseIsoTime (l : List Char) : Option (Nat × Nat × Nat × List Char) := do
  let (h, r1) ← readDigitsN 2 l
  let r2 ← expectChar ':' r1
  let (mi, r3) ← readDigitsN 2 r2
  match expectChar ':' r3 with
  | none => pure (h, mi, 0, r3)
  | some r4 => do
    let (s, r5) ← readDigitsN 2 r4
    match expectChar '.' r5 with
    | none => pure (h, mi, s, r5)
    | some r6 =>
      let frac := r6.takeWhile isDigitChar
      if frac.isEmpty then none else pure (h, mi, s, r6.dropWhile isDigitChar)

/-- Validates and discards a UTC offset suffix of the form ±HH:MM[:SS]. -/
def parseIsoOffset : List Char → Option Unit
  | [] => some ()
  | c :: r =>
    if (c == '+') || (c == '-') then
      match parseIsoTime r with
      | some (oh, om, _, rest) =>
        if rest.isEmpty && oh < 24 && om < 60 then some () else none
      | none => none
    else none

/-- Range validation a Python datetime constructor performs. -/
def checkDateTimeRanges (y m d h mi s : Nat) : Option String :=
  if y < 1 || 9999 < y then some ("year " ++ toString y ++ " is out of range")
  else if m < 1 || 12 < m then some "month must be in 1..12"
  else if d < 1 || daysInMonth y m < d then some "day is out of range for month"
  else if 23 < h then some "hour must be in 0..23"
  else if 59 < mi then some "minute must be in 0..59"
  else if 59 < s then some "second must be in 0..59"
  else none

/-- Models `datetime.fromisoformat` on extended-format strings
YYYY-MM-DD[<sep>HH:MM[:SS[.f+]][±HH:MM[:SS]]], including the `ValueError`
text raised on a string of a different shape. -/
def fromisoformat (s : String) : Except String PyDateTime :=
  let bad : Except String PyDateTime :=
    .error ("Invalid isoformat string: \x27" ++ s ++ "\x27")
  match parseIsoDate s.toList with
  | none => bad
  | some (y, m, d, rest) =>
    let timed : Option (Nat × Nat × Nat) :=
      match rest with
      | [] => some (0, 0, 0)
      | _ :: timeRest =>
        match parseIsoTime timeRest with
        | some (h, mi, sec, after) =>
          match parseIsoOffset after with
          | some _ => some (h, mi, sec)
          | none => none
        | none => none
    match timed with
    | none => bad
    | some (h, mi, sec) =>
      match checkDateTimeRanges y m d h mi sec with
      | some e => .error e
      | none => .ok ⟨y, m, d, h, mi, sec⟩

/-- Scanner for `replaceList`: replaces every occurrence of the non-empty
pattern, scanning left to right.  The fuel argument starts at the input
length and strictly dominates the characters consumed, so the exhausted-fuel
branch is never taken on well-fuelled calls. -/
def replaceGo (pat rep : List Char) : Nat → List Char → List Char
  | _, [] => []
  | 0, l => l
  | fuel + 1, c :: r =>
    if pat.isPrefixOf (c :: r) then rep ++ replaceGo pat rep fuel ((c :: r).drop pat.length)
    else c :: replaceGo pat rep fuel r

/-- Models Python `str.replace`, replacing every occurrence of the pattern,
scanning left to right (the repository only replaces the non-empty "Z"; an
empty pattern is modelled as the identity). -/
def replaceList (pat rep : List Char) (l : List Char) : List Char :=
  if pat.isEmpty then l else replaceGo pat rep l.length l

/-- Python `str.replace` on strings. -/
def pyReplace (s pat rep : String) : String :=
  ⟨replaceList pat.toList rep.toList s.toList⟩

/-- Raw record: a Python dict of string fields as an association list. -/
abbrev Row := List (String × String)

/-- Dict item access `row[f]` on a key known to be present; absent keys give
the empty string (the validators only access keys they checked). -/
def Row.get (row : Row) (f : String) : String := (row.lookup f).getD ""

/-- Required field names, in the order the validators check them
(`csv_importer.validate_row` and `queue_consumer.validate_message`). -/
def requiredFields : List String :=
  ["transaction_id", "sender_id", "receiver_id", "amount", "currency", "timestamp", "status"]

/-- Status enumeration of `models.TransactionStatus`. -/
inductive TransactionStatus where
  | pending
  | completed
  | failed
deriving DecidableEq, Repr

/-- String values of the status enumeration, in declaration order
(`[s.value for s in TransactionStatus]`). -/
def statusValues : List String := ["pending", "completed", "failed"]

/-- Models the `TransactionStatus(value)` enum constructor. -/
def TransactionStatus.parse (s : String) : Option TransactionStatus :=
  if s == "pending" then some .pending
  else if s == "completed" then some .completed
  else if s == "failed" then some .failed
  else none

/-- Models `csv_importer.validate_row`: a required field that is absent or
falsy (empty) is reported as missing; then amount, timestamp and status are
checked inside a try block whose caught exception text becomes the reason. -/
def validate_row (row : Row) : Bool × Option String :=
  match requiredFields.find? (fun f => (row.lookup f).isNone || ((row.lookup f).getD "" == "")) with
  | some f => (false, some ("Missing field: " ++ f))
  | none =>
    match pyFloat (row.get "amount") with
    | .error e => (false, some e)
    | .ok _ =>
      match fromisoformat (pyReplace (row.get "timestamp") "Z" "+00:00") with
      | .error e => (false, some e)
      | .ok _ =>
        if statusValues.contains (row.get "status") then (true, none)
        else (false, some ("Invalid status: " ++ row.get "status"))

/-- Models `queue_consumer.validate_message`: the missing-field loop checks
only `field not in data` (a present empty value passes); the try block is the
same as the CSV validator's. -/
def validate_message (data : Row) : Bool × Option String :=
  match requiredFields.find? (fun f => (data.lookup f).isNone) with
  | some f => (false, some ("Missing field: " ++ f))
  | none =>
    match pyFloat (data.get "amount") with
    | .error e => (false, some e)
    | .ok _ =>
      match fromisoformat (pyReplace (data.get "timestamp") "Z" "+00:00") with
      | .error e => (false, some e)
      | .ok _ =>
        if statusValues.contains (data.get "status") then (true, none)
        else (false, some ("Invalid status: " ++ data.get "status"))

/-- Ledger entity of `models.Transaction` (relationship attributes and the
store-generated columns carry no ingestion content and are omitted). -/
structure Transaction where
  id : String
  sender_id : String
  receiver_id : String
  amount : PyFloat
  currency : String
  timestamp : PyDateTime
  status : TransactionStatus
deriving DecidableEq, Repr

/-- Quarantine entity of `models.RejectedRecord` (the autoincrement id and
`received_at` are store-generated and omitted). -/
structure RejectedRecord where
  reason : String
  payload : String
  source : String
deriving DecidableEq, Repr

/-- Durable database state: the ledger and quarantine tables. -/
structure DB where
  transactions : List Transaction
  rejected : List RejectedRecord
deriving DecidableEq, Repr

/-- Construction of a `Transaction` from raw fields as both ingestion paths
perform it: parsed amount, parsed timestamp with Z normalised to +00:00,
parsed status.  A parse failure is an uncaught exception at this point. -/
def buildTx (row : Row) : Except String Transaction :=
  match pyFloat (row.get "amount") with
  | .error e => .error e
  | .ok a =>
    match fromisoformat (pyReplace (row.get "timestamp") "Z" "+00:00") with
    | .error e => .error e
    | .ok ts =>
      match TransactionStatus.parse (row.get "status") with
      | none => .error ("\x27" ++ row.get "status" ++ "\x27 is not a valid TransactionStatus")
      | some st =>
        .ok { id := row.get "transaction_id", sender_id := row.get "sender_id",
              receiver_id := row.get "receiver_id", amount := a, currency := row.get "currency",
              timestamp := ts, status := st }

/-- Python `repr` of a string without quotes or backslashes inside. -/
def pyRepr (s : String) : String := "\x27" ++ s ++ "\x27"

/-- Models Python `str(row)` on a dict of strings: `\x7b'k': 'v', ...\x7d`. -/
def pyStrDict (row : Row) : String :=
  "\x7b" ++ String.intercalate ", " (row.map (fun kv => pyRepr kv.1 ++ ": " ++ pyRepr kv.2)) ++ "\x7d"

/-- Comma splitting of one CSV line without quoting or escapes. -/
def splitComma : List Char → List (List Char)
  | [] => [[]]
  | c :: r =>
    if c == ',' then [] :: splitComma r
    else
      match splitComma r with
      | [] => [[c]]
      | g :: gs => (c :: g) :: gs

/-- Models `csv.DictReader` on one quote-free line under a given header. -/
def parseCsvLine (header : List String) (line : String) : Row :=
  header.zip ((splitComma line.toList).map (fun l => (⟨l⟩ : String)))

/-- Per-record outcome of an ingestion attempt. -/
inductive Outcome where
  | accepted
  | duplicate
  | quarantined (reason : String)
deriving DecidableEq, Repr

/-- Suspicious-amount threshold `SUSPICIOUS_AMOUNT` of the CSV importer. -/
def SUSPICIOUS_AMOUNT : Nat := 10000

/-- Open-session state of one CSV import run: rows added to the session but
not yet committed, together with the per-record outcomes and the suspicious
warnings that were logged. -/
structure CsvState where
  pendingTx : List Transaction
  pendingRej : List RejectedRecord
  outcomes : List Outcome
  signals : List String
deriving DecidableEq, Repr

/-- Empty session state at the start of a CSV run. -/
def CsvState.init : CsvState := ⟨[], [], [], []⟩

/-- Body of the per-row loop of `csv_importer.import_csv`.  The duplicate
check `session.get` sees committed rows and the rows pending in the session
(autoflush).  An error value is an uncaught exception. -/
def csvStep (db : DB) (st : CsvState) (row : Row) : Except String CsvState :=
  match validate_row row with
  | (false, err) =>
    Except.ok { st with
      pendingRej := st.pendingRej ++ [⟨(err.getD ""), pyStrDict row, "csv"⟩],
      outcomes := st.outcomes ++ [Outcome.quarantined (err.getD "")] }
  | (true, _) =>
    if (db.transactions ++ st.pendingTx).any (fun t => t.id == row.get "transaction_id") then
      Except.ok { st with outcomes := st.outcomes ++ [Outcome.duplicate] }
    else
      match pyFloat (row.get "amount") with
      | .error e => .error e
      | .ok av =>
        match buildTx row with
        | .error e => .error e
        | .ok tx =>
          Except.ok { st with
            pendingTx := st.pendingTx ++ [tx],
            outcomes := st.outcomes ++ [Outcome.accepted],
            signals := st.signals ++
              (if av.gtNat SUSPICIOUS_AMOUNT then [row.get "transaction_id"] else []) }

/-- Row loop of `import_csv`.  `failAt = some i` injects a storage-layer
failure (StoreUnavailable) raised by the session while processing record i;
the returned string is the propagated exception. -/
def csvLoop (db : DB) (failAt : Option Nat) : Nat → CsvState → List Row → CsvState × Option String
  | _, st, [] => (st, none)
  | i, st, row :: rest =>
    if failAt == some i then (st, some "StoreUnavailable")
    else
      match csvStep db st row with
      | Except.error e => (st, some e)
      | Except.ok st2 => csvLoop db failAt (i + 1) st2 rest

/-- Models `csv_importer.import_csv` on already-parsed rows: one session per
run, a single `session.commit()` after the loop.  An exception anywhere in
the run (including `failAt = some rows.length`, a failing commit) leaves the
durable state unchanged and propagates; otherwise the commit appends the
pending rows.  Returns (durable state, session state, propagated error). -/
def import_csv (failAt : Option Nat) (db : DB) (rows : List Row) : DB × CsvState × Option String :=
  match csvLoop db failAt 0 CsvState.init rows with
  | (st, some e) => (db, st, some e)
  | (st, none) =>
    if failAt == some rows.length then (db, st, some "StoreUnavailable")
    else (⟨db.transactions ++ st.pendingTx, db.rejected ++ st.pendingRej⟩, st, none)

/-- Models `import_csv` reading a CSV file: a header line and data lines. -/
def import_csv_file (failAt : Option Nat) (db : DB) (header : List String)
    (lines : List String) : DB × CsvState × Option String :=
  import_csv failAt db (lines.map (parseCsvLine header))

/-- Models `queue_consumer.insert_transaction`: per-message session, duplicate
ids are skipped, the insert commits immediately. -/
def insert_transaction (db : DB) (data : Row) : Except String (DB × Outcome) :=
  if db.transactions.any (fun t => t.id == data.get "transaction_id") then
    Except.ok (db, Outcome.duplicate)
  else
    match buildTx data with
    | .error e => .error e
    | .ok tx =>
      Except.ok ({ db with transactions := db.transactions ++ [tx] }, Outcome.accepted)

/-- Models `queue_consumer.save_rejected_record`: its own session and commit. -/
def save_rejected_record (db : DB) (reason payload source : String) : DB :=
  { db with rejected := db.rejected ++ [⟨reason, payload, source⟩] }

/-- Post-decode part of `queue_consumer.callback`: validate, then insert; any
exception of the insert is caught by the callback's handler and quarantined
with the decoded body as payload.  The final list holds the suspicious-amount
signals the path emits: the queue consumer contains no suspicious-amount
logic, so it is always empty. -/
def queue_ingest (db : DB) (data : Row) (body : String) : DB × Outcome × List String :=
  match validate_message data with
  | (false, err) =>
    (save_rejected_record db (err.getD "") body "queue", Outcome.quarantined (err.getD ""), [])
  | (true, _) =>
    match insert_transaction db data with
    | Except.ok (db2, out) => (db2, out, [])
    | Except.error e => (save_rejected_record db e body "queue", Outcome.quarantined e, [])

/-- Models `queue_consumer.callback`, parameterised by the wire decoder
(`json.loads` plus the dict-shape requirement); a decode failure is caught
and quarantined with the error text and the verbatim body. -/
def callback (decode : String → Except String Row) (db : DB) (body : String) :
    DB × Outcome × List String :=
  match decode body with
  | Except.error e => (save_rejected_record db e body "queue", Outcome.quarantined e, [])
  | Except.ok data => queue_ingest db data body

/-- Filter of `reporting.get_payments_by_user`: the user is sender or
receiver. -/
def txInvolvesUser (uid : String) (t : Transaction) : Bool :=
  (t.sender_id == uid) || (t.receiver_id == uid)

/-- Lower range bound `Transaction.timestamp >= start_date` (a date parameter
is coerced to midnight); absent bound passes everything. -/
def afterStart (s : Option PyDate) (ts : PyDateTime) : Bool :=
  match s with
  | none => true
  | some d => (PyDate.midnight d).leb ts

/-- Exclusive upper bound `Transaction.timestamp < end_date`, used by the
self-managed-session branches of `reporting.py`. -/
def beforeEndExcl (e : Option PyDate) (ts : PyDateTime) : Bool :=
  match e with
  | none => true
  | some d => ts.ltb (PyDate.midnight d)

/-- Inclusive upper bound `Transaction.timestamp <= end_date`, used by the
passed-session branch of `get_payments_by_user`. -/
def beforeEndIncl (e : Option PyDate) (ts : PyDateTime) : Bool :=
  match e with
  | none => true
  | some d => ts.leb (PyDate.midnight d)

/-- Ordering relation of the `ORDER BY timestamp` clause. -/
def tsLe (a b : Transaction) : Prop := a.timestamp.leb b.timestamp = true

instance : DecidableRel tsLe := fun _ _ => instDecidableEqBool _ _

/-- Models `get_payments_by_user(user_id, start, end)` with no session passed
(the `if not db` branch): end bound exclusive, ordered by timestamp.  The
output dict serialisation is omitted; entries carry the same fields. -/
def get_payments_by_user_default (uid : String) (s e : Option PyDate)
    (txs : List Transaction) : List Transaction :=
  List.insertionSort tsLe
    (txs.filter (fun t => txInvolvesUser uid t && afterStart s t.timestamp
      && beforeEndExcl e t.timestamp))

/-- Models `get_payments_by_user(user_id, start, end, db)` with a session
passed (the `else` branch): end bound inclusive, ordered by timestamp. -/
def get_payments_by_user_db (uid : String) (s e : Option PyDate)
    (txs : List Transaction) : List Transaction :=
  List.insertionSort tsLe
    (txs.filter (fun t => txInvolvesUser uid t && afterStart s t.timestamp
      && beforeEndIncl e t.timestamp))

/-- Ordering relation on calendar days used by `sorted(totals.keys())`. -/
def dayLe (a b : Day) : Prop := lexLe (Day.fields a) (Day.fields b) = true

instance : DecidableRel dayLe := fun _ _ => instDecidableEqBool _ _

/-- One output entry of `get_daily_totals` (the day is serialised to an ISO
string by the source; the model keeps the day value). -/
structure DailyTotal where
  day : Day
  total_sent : PyFloat
  total_received : PyFloat
deriving DecidableEq, Repr

/-- Models one SQL `GROUP BY date(timestamp)` / `SUM(amount)` query: one pair
per distinct day of the filtered rows. -/
def groupSumByDay (txs : List Transaction) : List (Day × PyFloat) :=
  ((txs.map (fun t => t.timestamp.dateOf)).dedup).map
    (fun d => (d, pfSum ((txs.filter (fun t => t.timestamp.dateOf == d)).map (fun t => t.amount))))

/-- Output-entry construction of `get_daily_totals`: the merged totals dict
entry of one day, with a 0.0 default for a side with no rows that day. -/
def mergeTotals (sentSums recvSums : List (Day × PyFloat)) (d : Day) : DailyTotal :=
  { day := d,
    total_sent := match sentSums.lookup d with
      | some v => v
      | none => PyFloat.finite 0,
    total_received := match recvSums.lookup d with
      | some v => v
      | none => PyFloat.finite 0 }

/-- Models `reporting.get_daily_totals`: two per-day aggregates (sent rows and
received rows of the user, both range-filtered with the exclusive end bound
both branches use), merged by day with a 0.0 default for an absent side, and
emitted sorted by day.  The two source branches perform the same computation
and are modelled once. -/
def get_daily_totals (uid : String) (s e : Option PyDate)
    (txs : List Transaction) : List DailyTotal :=
  let inR := fun t : Transaction => afterStart s t.timestamp && beforeEndExcl e t.timestamp
  let sent := txs.filter (fun t => (t.sender_id == uid) && inR t)
  let received := txs.filter (fun t => (t.receiver_id == uid) && inR t)
  let sentSums := groupSumByDay sent
  let recvSums := groupSumByDay received
  let days := (sentSums.map Prod.fst ++ recvSums.map Prod.fst).dedup
  (List.insertionSort dayLe days).map (mergeTotals sentSums recvSums)

/-! Helper lemmas. -/

theorem lexLe_total : ∀ as bs : List Nat, lexLe as bs = true ∨ lexLe bs as = true := by
  intro as
  induction as with
  | nil => intro bs; left; simp [lexLe]
  | cons a tl ih =>
    intro bs
    cases bs with
    | nil => right; simp [lexLe]
    | cons b bt =>
      by_cases h1 : a < b
      · left; simp [lexLe, h1]
      · by_cases h2 : b < a
        · right; simp [lexLe, h2]
        · have he : a = b := by omega
          subst he
          simpa [lexLe, h1, h2] using ih bt

theorem lexLe_trans : ∀ as bs cs : List Nat,
    lexLe as bs = true → lexLe bs cs = true → lexLe as cs = true := by
  intro as
  induction as with
  | nil => intro bs cs _ _; simp [lexLe]
  | cons a tl ih =>
    intro bs cs h1 h2
    cases bs with
    | nil => simp [lexLe] at h1
    | cons b bt =>
      cases cs with
      | nil => simp [lexLe] at h2
      | cons c ct =>
        by_cases hab : a < b
        · by_cases hac : a < c
          · simp [lexLe, hac]
          · by_cases hbc : b < c
            · omega
            · by_cases hcb : c < b
              · simp [lexLe, hbc, hcb] at h2
              · omega
        · by_cases hba : b < a
          · simp [lexLe, hab, hba] at h1
          · have he : a = b := by omega
            subst he
            simp [lexLe, hab, hba] at h1
            by_cases hac : a < c
            · simp [lexLe, hac]
            · by_cases hca : c < a
              · simp [lexLe, hac, hca] at h2
              · have he2 : a = c := by omega
                subst he2
                simp [lexLe, hac, hca] at h2 ⊢
                exact ih bt ct h1 h2

instance : IsTotal Transaction tsLe :=
  ⟨fun a b => by
    unfold tsLe PyDateTime.leb
    exact lexLe_total a.timestamp.fields b.timestamp.fields⟩

instance : IsTrans Transaction tsLe :=
  ⟨fun a b c h1 h2 => by
    unfold tsLe PyDateTime.leb at h1 h2 ⊢
    exact lexLe_trans _ _ _ h1 h2⟩

instance : IsTotal Day dayLe :=
  ⟨fun a b => by
    unfold dayLe
    exact lexLe_total a.fields b.fields⟩

instance : IsTrans Day dayLe :=
  ⟨fun a b c h1 h2 => by
    unfold dayLe at h1 h2 ⊢
    exact lexLe_trans _ _ _ h1 h2⟩

theorem parse_of_contains {s : String} (h : statusValues.contains s = true) :
    ∃ c, TransactionStatus.parse s = some c := by
  have hm : s ∈ statusValues := by
    simpa using h
  simp only [statusValues, List.mem_cons, List.mem_singleton, List.not_mem_nil, or_false] at hm
  rcases hm with h1 | h1 | h1 <;> subst h1 <;> simp [TransactionStatus.parse]

theorem validate_row_true_elim {row : Row} (h : validate_row row = (true, none)) :
    requiredFields.find?
        (fun f => (row.lookup f).isNone || ((row.lookup f).getD "" == "")) = none
    ∧ (∃ v, pyFloat (Row.get row "amount") = Except.ok v)
    ∧ (∃ d, fromisoformat (pyReplace (Row.get row "timestamp") "Z" "+00:00") = Except.ok d)
    ∧ statusValues.contains (Row.get row "status") = true := by
  unfold validate_row at h
  cases hf : requiredFields.find?
      (fun f => (row.lookup f).isNone || ((row.lookup f).getD "" == "")) with
  | some f => rw [hf] at h; simp at h
  | none =>
    rw [hf] at h
    refine ⟨rfl, ?_⟩
    cases ha : pyFloat (Row.get row "amount") with
    | error e => rw [ha] at h; simp at h
    | ok v =>
      rw [ha] at h
      refine ⟨⟨v, rfl⟩, ?_⟩
      cases ht : fromisoformat (pyReplace (Row.get row "timestamp") "Z" "+00:00") with
      | error e => rw [ht] at h; simp at h
      | ok d =>
        rw [ht] at h
        refine ⟨⟨d, rfl⟩, ?_⟩
        by_cases hs : statusValues.contains (Row.get row "status") = true
        · exact hs
        · simp only [Bool.not_eq_true] at hs
          rw [hs] at h
          simp at h

theorem validate_message_true_elim {data : Row} (h : validate_message data = (true, none)) :
    requiredFields.find? (fun f => (data.lookup f).isNone) = none
    ∧ (∃ v, pyFloat (Row.get data "amount") = Except.ok v)
    ∧ (∃ d, fromisoformat (pyReplace (Row.get data "timestamp") "Z" "+00:00") = Except.ok d)
    ∧ statusValues.contains (Row.get data "status") = true := by
  unfold validate_message at h
  cases hf : requiredFields.find? (fun f => (data.lookup f).isNone) with
  | some f => rw [hf] at h; simp at h
  | none =>
    rw [hf] at h
    refine ⟨rfl, ?_⟩
    cases ha : pyFloat (Row.get data "amount") with
    | error e => rw [ha] at h; simp at h
    | ok v =>
      rw [ha] at h
      refine ⟨⟨v, rfl⟩, ?_⟩
      cases ht : fromisoformat (pyReplace (Row.get data "timestamp") "Z" "+00:00") with
      | error e => rw [ht] at h; simp at h
      | ok d =>
        rw [ht] at h
        refine ⟨⟨d, rfl⟩, ?_⟩
        by_cases hs : statusValues.contains (Row.get data "status") = true
        · exact hs
        · simp only [Bool.not_eq_true] at hs
          rw [hs] at h
          simp at h

theorem validate_row_fst_true {row : Row} (h : (validate_row row).1 = true) :
    validate_row row = (true, none) := by
  unfold validate_row at h ⊢
  cases hf : requiredFields.find?
      (fun f => (row.lookup f).isNone || ((row.lookup f).getD "" == "")) with
  | some f => rw [hf] at h; simp at h
  | none =>
    rw [hf] at h
    cases ha : pyFloat (Row.get row "amount") with
    | error e => rw [ha] at h; simp at h
    | ok v =>
      rw [ha] at h
      cases ht : fromisoformat (pyReplace (Row.get row "timestamp") "Z" "+00:00") with
      | error e => rw [ht] at h; simp at h
      | ok d =>
        rw [ht] at h
        by_cases hs : statusValues.contains (Row.get row "status") = true
        · have hs2 : Row.get row "status" ∈ statusValues := by simpa using hs
          simp [hs, hs2]
        · simp only [Bool.not_eq_true] at hs
          rw [hs] at h
          simp at h

theorem validate_message_fst_true {data : Row} (h : (validate_message data).1 = true) :
    validate_message data = (true, none) := by
  unfold validate_message at h ⊢
  cases hf : requiredFields.find? (fun f => (data.lookup f).isNone) with
  | some f => rw [hf] at h; simp at h
  | none =>
    rw [hf] at h
    cases ha : pyFloat (Row.get data "amount") with
    | error e => rw [ha] at h; simp at h
    | ok v =>
      rw [ha] at h
      cases ht : fromisoformat (pyReplace (Row.get data "timestamp") "Z" "+00:00") with
      | error e => rw [ht] at h; simp at h
      | ok d =>
        rw [ht] at h
        by_cases hs : statusValues.contains (Row.get data "status") = true
        · have hs2 : Row.get data "status" ∈ statusValues := by simpa using hs
          simp [hs, hs2]
        · simp only [Bool.not_eq_true] at hs
          rw [hs] at h
          simp at h

theorem buildTx_of_validate_row {row : Row} (h : validate_row row = (true, none)) :
    ∃ tx, buildTx row = Except.ok tx
      ∧ tx.id = Row.get row "transaction_id"
      ∧ tx.sender_id = Row.get row "sender_id"
      ∧ tx.receiver_id = Row.get row "receiver_id"
      ∧ pyFloat (Row.get row "amount") = Except.ok tx.amount
      ∧ tx.currency = Row.get row "currency" := by
  obtain ⟨-, ⟨v, hv⟩, ⟨d, hd⟩, hs⟩ := validate_row_true_elim h
  obtain ⟨c, hc⟩ := parse_of_contains hs
  refine ⟨⟨Row.get row "transaction_id", Row.get row "sender_id", Row.get row "receiver_id",
    v, Row.get row "currency", d, c⟩, ?_, rfl, rfl, rfl, hv, rfl⟩
  unfold buildTx
  rw [hv, hd, hc]

theorem buildTx_of_validate_message {data : Row} (h : validate_message data = (true, none)) :
    ∃ tx, buildTx data = Except.ok tx
      ∧ tx.id = Row.get data "transaction_id"
      ∧ tx.sender_id = Row.get data "sender_id"
      ∧ tx.receiver_id = Row.get data "receiver_id"
      ∧ pyFloat (Row.get data "amount") = Except.ok tx.amount
      ∧ tx.currency = Row.get data "currency" := by
  obtain ⟨-, ⟨v, hv⟩, ⟨d, hd⟩, hs⟩ := validate_message_true_elim h
  obtain ⟨c, hc⟩ := parse_of_contains hs
  refine ⟨⟨Row.get data "transaction_id", Row.get data "sender_id", Row.get data "receiver_id",
    v, Row.get data "currency", d, c⟩, ?_, rfl, rfl, rfl, hv, rfl⟩
  unfold buildTx
  rw [hv, hd, hc]

theorem csvStep_invalid (db : DB) (st : CsvState) (row : Row) {e : String}
    (h : validate_row row = (false, some e)) :
    csvStep db st row = Except.ok { st with
      pendingRej := st.pendingRej ++ [⟨e, pyStrDict row, "csv"⟩],
      outcomes := st.outcomes ++ [Outcome.quarantined e] } := by
  unfold csvStep
  rw [h]
  rfl

theorem csvStep_valid_dup (db : DB) (st : CsvState) (row : Row)
    (hv : validate_row row = (true, none))
    (hdup : (db.transactions ++ st.pendingTx).any
      (fun t => t.id == Row.get row "transaction_id") = true) :
    csvStep db st row = Except.ok { st with outcomes := st.outcomes ++ [Outcome.duplicate] } := by
  unfold csvStep
  rw [hv, hdup]
  simp

theorem csvStep_valid_fresh (db : DB) (st : CsvState) (row : Row)
    (hv : validate_row row = (true, none))
    (hdup : (db.transactions ++ st.pendingTx).any
      (fun t => t.id == Row.get row "transaction_id") = false) :
    ∃ tx, buildTx row = Except.ok tx
      ∧ tx.id = Row.get row "transaction_id"
      ∧ pyFloat (Row.get row "amount") = Except.ok tx.amount
      ∧ csvStep db st row = Except.ok { st with
          pendingTx := st.pendingTx ++ [tx],
          outcomes := st.outcomes ++ [Outcome.accepted],
          signals := st.signals ++
            (if tx.amount.gtNat SUSPICIOUS_AMOUNT then [Row.get row "transaction_id"] else []) } := by
  obtain ⟨tx, hb, hid, hs, hr, hamt, hc⟩ := buildTx_of_validate_row hv
  refine ⟨tx, hb, hid, hamt, ?_⟩
  unfold csvStep
  rw [hv, hdup, hamt, hb]
  simp

theorem csvStep_ok (db : DB) (st : CsvState) (row : Row) :
    ∃ st2 o, csvStep db st row = Except.ok st2
      ∧ st2.outcomes = st.outcomes ++ [o]
      ∧ (∀ e, validate_row row = (false, some e) → o = Outcome.quarantined e) := by
  cases hv : validate_row row with
  | mk b err =>
    cases b with
    | false =>
      refine ⟨{ st with
          pendingRej := st.pendingRej ++ [⟨err.getD "", pyStrDict row, "csv"⟩],
          outcomes := st.outcomes ++ [Outcome.quarantined (err.getD "")] },
        Outcome.quarantined (err.getD ""), ?_, rfl, ?_⟩
      · unfold csvStep
        rw [hv]
      · intro e he
        simp at he
        rw [he]
        rfl
    | true =>
      have hv2 : validate_row row = (true, none) := by
        apply validate_row_fst_true
        rw [hv]
      by_cases hdup : (db.transactions ++ st.pendingTx).any
          (fun t => t.id == Row.get row "transaction_id") = true
      · refine ⟨_, Outcome.duplicate, csvStep_valid_dup db st row hv2 hdup, rfl, ?_⟩
        intro e he
        simp at he
      · simp only [Bool.not_eq_true] at hdup
        obtain ⟨tx, _, _, _, hstep⟩ := csvStep_valid_fresh db st row hv2 hdup
        refine ⟨_, Outcome.accepted, hstep, rfl, ?_⟩
        intro e he
        simp at he

theorem csvLoop_none_spec (db : DB) :
    ∀ (rows : List Row) (i : Nat) (st : CsvState),
      ∃ st2 outs, csvLoop db none i st rows = (st2, none)
        ∧ st2.outcomes = st.outcomes ++ outs
        ∧ outs.length = rows.length
        ∧ (∀ j (hj : j < rows.length) e,
            validate_row (rows.get ⟨j, hj⟩) = (false, some e) →
            outs.get? j = some (Outcome.quarantined e)) := by
  intro rows
  induction rows with
  | nil =>
    intro i st
    refine ⟨st, [], rfl, by simp, rfl, ?_⟩
    intro j hj
    simp at hj
  | cons row rest ih =>
    intro i st
    obtain ⟨st1, o, hstep, hout1, hq⟩ := csvStep_ok db st row
    obtain ⟨st2, outs, hloop, hout2, hlen, hqs⟩ := ih (i + 1) st1
    refine ⟨st2, o :: outs, ?_, ?_, ?_, ?_⟩
    · unfold csvLoop
      simp only [hstep]
      simpa using hloop
    · rw [hout2, hout1]
      simp
    · simp [hlen]
    · intro j hj e he
      cases j with
      | zero =>
        have h0 := hq e he
        simp [h0]
      | succ j2 =>
        simp only [List.get?]
        exact hqs j2 (by simpa using hj) e (by simpa using he)

theorem import_csv_none_spec (db : DB) (rows : List Row) :
    ∃ st, import_csv none db rows =
        (⟨db.transactions ++ st.pendingTx, db.rejected ++ st.pendingRej⟩, st, none)
      ∧ st.outcomes.length = rows.length
      ∧ (∀ j (hj : j < rows.length) e,
          validate_row (rows.get ⟨j, hj⟩) = (false, some e) →
          st.outcomes.get? j = some (Outcome.quarantined e)) := by
  obtain ⟨st2, outs, hloop, hout, hlen, hqs⟩ := csvLoop_none_spec db rows 0 CsvState.init
  have houts : st2.outcomes = outs := by simpa [CsvState.init] using hout
  refine ⟨st2, ?_, by rw [houts]; exact hlen, by rw [houts]; exact hqs⟩
  unfold import_csv
  rw [hloop]
  simp

theorem csvLoop_ge_eq_none (db : DB) :
    ∀ (rows : List Row) (st : CsvState) (i m : Nat), i + rows.length ≤ m →
      csvLoop db (some m) i st rows = csvLoop db none i st rows := by
  intro rows
  induction rows with
  | nil => intro st i m _; rfl
  | cons row rest ih =>
    intro st i m hm
    obtain ⟨st1, o, hstep, _, _⟩ := csvStep_ok db st row
    unfold csvLoop
    have hne : (some m == some i) = false := by
      simp only [List.length_cons] at hm
      simp
      omega
    rw [hne]
    simp only [hstep]
    have : (none == some i) = false := by simp
    rw [this]
    exact ih st1 (i + 1) m (by simp only [List.length_cons] at hm; omega)

theorem csvLoop_fail (db : DB) :
    ∀ (rows : List Row) (st : CsvState) (i j : Nat), j < rows.length →
      ∃ st2, csvLoop db (some (i + j)) i st rows = (st2, some "StoreUnavailable") := by
  intro rows
  induction rows with
  | nil => intro st i j hj; simp at hj
  | cons row rest ih =>
    intro st i j hj
    cases j with
    | zero =>
      refine ⟨st, ?_⟩
      simp [csvLoop]
    | succ j2 =>
      obtain ⟨st1, o, hstep, _, _⟩ := csvStep_ok db st row
      obtain ⟨st2, hloop⟩ := ih st1 (i + 1) j2 (by simpa using hj)
      refine ⟨st2, ?_⟩
      unfold csvLoop
      have hne : (some (i + (j2 + 1)) == some i) = false := by
        simp
      rw [hne]
      simp only [hstep]
      have harith : i + 1 + j2 = i + (j2 + 1) := by omega
      rw [harith] at hloop
      simpa using hloop

theorem import_csv_fail_spec (db : DB) (rows : List Row) (k : Nat) (hk : k ≤ rows.length) :
    (import_csv (some k) db rows).1 = db
      ∧ (import_csv (some k) db rows).2.2 = some "StoreUnavailable" := by
  rcases Nat.lt_or_ge k rows.length with h | h
  · obtain ⟨st2, hloop⟩ := csvLoop_fail db rows CsvState.init 0 k (by simpa using h)
    have hloop2 : csvLoop db (some k) 0 CsvState.init rows = (st2, some "StoreUnavailable") := by
      simpa using hloop
    unfold import_csv
    rw [hloop2]
    simp
  · have hk2 : k = rows.length := by omega
    subst hk2
    obtain ⟨st2, outs, hloop, _, _, _⟩ := csvLoop_none_spec db rows 0 CsvState.init
    unfold import_csv
    rw [csvLoop_ge_eq_none db rows CsvState.init 0 rows.length (by omega), hloop]
    simp

theorem queue_ingest_fresh (db : DB) (data : Row) (body : String)
    (hm : validate_message data = (true, none))
    (hfresh : db.transactions.any (fun t => t.id == Row.get data "transaction_id") = false) :
    ∃ tx, buildTx data = Except.ok tx
      ∧ tx.id = Row.get data "transaction_id"
      ∧ pyFloat (Row.get data "amount") = Except.ok tx.amount
      ∧ queue_ingest db data body =
          ({ db with transactions := db.transactions ++ [tx] }, Outcome.accepted, []) := by
  obtain ⟨tx, hb, hid, hs, hr, hamt, hc⟩ := buildTx_of_validate_message hm
  refine ⟨tx, hb, hid, hamt, ?_⟩
  unfold queue_ingest insert_transaction
  rw [hm, hfresh, hb]
  rfl

theorem queue_ingest_dup (db : DB) (data : Row) (body : String)
    (hm : validate_message data = (true, none))
    (hdup : db.transactions.any (fun t => t.id == Row.get data "transaction_id") = true) :
    queue_ingest db data body = (db, Outcome.duplicate, []) := by
  unfold queue_ingest insert_transaction
  rw [hm, hdup]
  simp

theorem lookup_map_self {β : Type} (g : Day → β) :
    ∀ (ks : List Day) (d : Day),
      ((ks.map (fun k => (k, g k))).lookup d) = if d ∈ ks then some (g d) else none := by
  intro ks
  induction ks with
  | nil => intro d; simp
  | cons k kt ih =>
    intro d
    by_cases hd : d = k
    · subst hd
      simp [List.lookup]
    · have hb : (d == k) = false := by simpa using hd
      simp [List.lookup, hb, ih, hd]

theorem groupSum_lookup (txs : List Transaction) (d : Day) :
    (groupSumByDay txs).lookup d =
      if d ∈ txs.map (fun t => t.timestamp.dateOf)
      then some (pfSum ((txs.filter (fun t => t.timestamp.dateOf == d)).map (fun t => t.amount)))
      else none := by
  unfold groupSumByDay
  rw [lookup_map_self]
  simp [List.mem_dedup]

theorem groupSum_keys (txs : List Transaction) :
    (groupSumByDay txs).map Prod.fst = (txs.map (fun t => t.timestamp.dateOf)).dedup := by
  unfold groupSumByDay
  rw [List.map_map]
  rw [show (Prod.fst ∘ fun d : Day =>
    (d, pfSum ((txs.filter (fun t => t.timestamp.dateOf == d)).map (fun t => t.amount)))) = id
    from rfl]
  rw [List.map_id]

theorem badCsv_iff (row : Row) (f : String) :
    ((row.lookup f).isNone || ((row.lookup f).getD "" == "")) = (Row.get row f == "") := by
  unfold Row.get
  cases row.lookup f <;> simp

theorem csv_find_none_of_present (row : Row)
    (h : requiredFields.all (fun f => !(Row.get row f == "")) = true) :
    requiredFields.find?
      (fun f => (row.lookup f).isNone || ((row.lookup f).getD "" == "")) = none := by
  rw [List.find?_eq_none]
  intro f hf
  have hne : (!(Row.get row f == "")) = true := List.all_eq_true.mp h f hf
  rw [badCsv_iff]
  simpa using hne

theorem queue_find_none_of_present (data : Row)
    (h : requiredFields.all (fun f => !(Row.get data f == "")) = true) :
    requiredFields.find? (fun f => (data.lookup f).isNone) = none := by
  rw [List.find?_eq_none]
  intro f hf
  have hne : (!(Row.get data f == "")) = true := List.all_eq_true.mp h f hf
  unfold Row.get at hne
  cases hl : data.lookup f with
  | none => rw [hl] at hne; simp at hne
  | some v => simp

/-- C2 (amended): on every raw record all of whose required fields are present
and non-empty, the CSV-path validator and the queue-path validator return
exactly the same result.  (As stated, the claim is false: the two validators
differ on records with a present-but-empty required field.) -/
theorem c2_validator_agreement (row : Row)
    (h : requiredFields.all (fun f => !(Row.get row f == "")) = true) :
    validate_row row = validate_message row := by
  unfold validate_row validate_message
  rw [csv_find_none_of_present row h, queue_find_none_of_present row h]

/-- C2 witness: a fully-populated record on which both validators agree. -/
theorem c2_validator_agreement_witness :
    requiredFields.all (fun f => !(Row.get
        [("transaction_id", "tx100"), ("sender_id", "user1"), ("receiver_id", "user2"),
         ("amount", "250.00"), ("currency", "USD"), ("timestamp", "2025-05-01T12:00:00Z"),
         ("status", "completed")] f == "")) = true
      ∧ validate_row
          [("transaction_id", "tx100"), ("sender_id", "user1"), ("receiver_id", "user2"),
           ("amount", "250.00"), ("currency", "USD"), ("timestamp", "2025-05-01T12:00:00Z"),
           ("status", "completed")]
        = validate_message
          [("transaction_id", "tx100"), ("sender_id", "user1"), ("receiver_id", "user2"),
           ("amount", "250.00"), ("currency", "USD"), ("timestamp", "2025-05-01T12:00:00Z"),
           ("status", "completed")] :=
  ⟨by decide, c2_validator_agreement _ (by decide)⟩

/-- C2 counterexample: with `transaction_id` present but empty the CSV
validator rejects (missing field) while the queue validator accepts, so the
two validators do not return the same result on the same raw record. -/
theorem c2_validator_agreement_counterexample :
    validate_row
        [("transaction_id", ""), ("sender_id", "user1"), ("receiver_id", "user2"),
         ("amount", "250.00"), ("currency", "USD"), ("timestamp", "2025-05-01T12:00:00Z"),
         ("status", "completed")]
      = (false, some "Missing field: transaction_id")
    ∧ validate_message
        [("transaction_id", ""), ("sender_id", "user1"), ("receiver_id", "user2"),
         ("amount", "250.00"), ("currency", "USD"), ("timestamp", "2025-05-01T12:00:00Z"),
         ("status", "completed")]
      = (true, none)
    ∧ validate_row
        [("transaction_id", ""), ("sender_id", "user1"), ("receiver_id", "user2"),
         ("amount", "250.00"), ("currency", "USD"), ("timestamp", "2025-05-01T12:00:00Z"),
         ("status", "completed")]
      ≠ validate_message
        [("transaction_id", ""), ("sender_id", "user1"), ("receiver_id", "user2"),
         ("amount", "250.00"), ("currency", "USD"), ("timestamp", "2025-05-01T12:00:00Z"),
         ("status", "completed")] := by
  refine ⟨by decide, by decide, by decide⟩

theorem import_csv_single_invalid (db : DB) (row : Row) {e : String}
    (h : validate_row row = (false, some e)) :
    import_csv none db [row] =
      (⟨db.transactions, db.rejected ++ [⟨e, pyStrDict row, "csv"⟩]⟩,
       ⟨[], [⟨e, pyStrDict row, "csv"⟩], [Outcome.quarantined e], []⟩, none) := by
  have hstep := csvStep_invalid db CsvState.init row h
  have hloop : csvLoop db none 0 CsvState.init [row] =
      (⟨[], [⟨e, pyStrDict row, "csv"⟩], [Outcome.quarantined e], []⟩, none) := by
    unfold csvLoop
    rw [show (none == some 0 : Bool) = false from rfl, hstep]
    simp [CsvState.init, csvLoop]
  unfold import_csv
  rw [hloop]
  simp

/-- C3 (amended): a raw record with a required field that is absent or empty
is rejected with reason `Missing field: f` naming the first such field in the
fixed order, and quarantined with that reason — on the CSV path.  On the queue
path the same holds with "absent" in place of "absent or empty": the queue
validator's missing-field loop only tests key absence, so a present-but-empty
field is not reported as missing there (the original claim is false for the
queue path). -/
theorem c3_missing_field_first (db : DB) (row data : Row)
    (hbad : ∃ f ∈ requiredFields, Row.get row f = "")
    (hbad2 : ∃ f ∈ requiredFields, (data.lookup f).isNone = true) :
    (∃ f pre post,
        requiredFields = pre ++ f :: post
        ∧ Row.get row f = ""
        ∧ (∀ g ∈ pre, Row.get row g ≠ "")
        ∧ validate_row row = (false, some ("Missing field: " ++ f))
        ∧ (import_csv none db [row]).1.rejected
            = db.rejected ++ [⟨"Missing field: " ++ f, pyStrDict row, "csv"⟩]
        ∧ (import_csv none db [row]).1.transactions = db.transactions
        ∧ (import_csv none db [row]).2.1.outcomes
            = [Outcome.quarantined ("Missing field: " ++ f)])
    ∧ (∃ f pre post,
        requiredFields = pre ++ f :: post
        ∧ (data.lookup f).isNone = true
        ∧ (∀ g ∈ pre, (data.lookup g).isNone = false)
        ∧ validate_message data = (false, some ("Missing field: " ++ f))
        ∧ (∀ body, queue_ingest db data body
            = (save_rejected_record db ("Missing field: " ++ f) body "queue",
               Outcome.quarantined ("Missing field: " ++ f), []))) := by
  constructor
  · obtain ⟨f0, hf0, hv0⟩ := hbad
    have hnn : requiredFields.find?
        (fun f => (row.lookup f).isNone || ((row.lookup f).getD "" == "")) ≠ none := by
      intro hn
      have := List.find?_eq_none.mp hn f0 hf0
      rw [badCsv_iff] at this
      simp [hv0] at this
    obtain ⟨f, hfind⟩ := Option.ne_none_iff_exists.mp hnn
    have hsome := List.find?_eq_some.mp hfind.symm
    obtain ⟨hp, pre, post, hsplit, hpre⟩ := hsome
    have hvr : validate_row row = (false, some ("Missing field: " ++ f)) := by
      unfold validate_row
      rw [← hfind]
    refine ⟨f, pre, post, hsplit, ?_, ?_, hvr, ?_, ?_, ?_⟩
    · rw [badCsv_iff] at hp
      simpa using hp
    · intro g hg
      have := hpre g hg
      rw [badCsv_iff] at this
      simpa using this
    · rw [import_csv_single_invalid db row hvr]
    · rw [import_csv_single_invalid db row hvr]
    · rw [import_csv_single_invalid db row hvr]
  · obtain ⟨f0, hf0, hv0⟩ := hbad2
    have hnn : requiredFields.find? (fun f => (data.lookup f).isNone) ≠ none := by
      intro hn
      have := List.find?_eq_none.mp hn f0 hf0
      simp [hv0] at this
    obtain ⟨f, hfind⟩ := Option.ne_none_iff_exists.mp hnn
    have hsome := List.find?_eq_some.mp hfind.symm
    obtain ⟨hp, pre, post, hsplit, hpre⟩ := hsome
    have hvm : validate_message data = (false, some ("Missing field: " ++ f)) := by
      unfold validate_message
      rw [← hfind]
    refine ⟨f, pre, post, hsplit, hp, ?_, hvm, ?_⟩
    · intro g hg
      have := hpre g hg
      simpa using this
    · intro body
      unfold queue_ingest
      rw [hvm]
      rfl

/-- C3 witness: a record with an empty `receiver_id` on the CSV path and a
record lacking `currency` on the queue path, both quarantined with the first
missing field's name. -/
theorem c3_missing_field_first_witness :
    (∃ f pre post,
        requiredFields = pre ++ f :: post
        ∧ Row.get [("transaction_id", "tx1"), ("sender_id", "u1"), ("receiver_id", ""),
            ("amount", "1"), ("currency", "USD"), ("timestamp", "2025-05-01T12:00:00Z"),
            ("status", "completed")] f = ""
        ∧ (∀ g ∈ pre, Row.get [("transaction_id", "tx1"), ("sender_id", "u1"),
            ("receiver_id", ""), ("amount", "1"), ("currency", "USD"),
            ("timestamp", "2025-05-01T12:00:00Z"), ("status", "completed")] g ≠ "")
        ∧ validate_row [("transaction_id", "tx1"), ("sender_id", "u1"), ("receiver_id", ""),
            ("amount", "1"), ("currency", "USD"), ("timestamp", "2025-05-01T12:00:00Z"),
            ("status", "completed")] = (false, some ("Missing field: " ++ f))
        ∧ (import_csv none ⟨[], []⟩ [[("transaction_id", "tx1"), ("sender_id", "u1"),
            ("receiver_id", ""), ("amount", "1"), ("currency", "USD"),
            ("timestamp", "2025-05-01T12:00:00Z"), ("status", "completed")]]).1.rejected
            = ([] : List RejectedRecord) ++ [⟨"Missing field: " ++ f,
                pyStrDict [("transaction_id", "tx1"), ("sender_id", "u1"), ("receiver_id", ""),
                  ("amount", "1"), ("currency", "USD"), ("timestamp", "2025-05-01T12:00:00Z"),
                  ("status", "completed")], "csv"⟩]
        ∧ (import_csv none ⟨[], []⟩ [[("transaction_id", "tx1"), ("sender_id", "u1"),
            ("receiver_id", ""), ("amount", "1"), ("currency", "USD"),
            ("timestamp", "2025-05-01T12:00:00Z"), ("status", "completed")]]).1.transactions
            = ([] : List Transaction)
        ∧ (import_csv none ⟨[], []⟩ [[("transaction_id", "tx1"), ("sender_id", "u1"),
            ("receiver_id", ""), ("amount", "1"), ("currency", "USD"),
            ("timestamp", "2025-05-01T12:00:00Z"), ("status", "completed")]]).2.1.outcomes
            = [Outcome.quarantined ("Missing field: " ++ f)])
    ∧ (∃ f pre post,
        requiredFields = pre ++ f :: post
        ∧ (([("transaction_id", "tx1"), ("sender_id", "u1"), ("receiver_id", "u2"),
            ("amount", "1"), ("timestamp", "2025-05-01T12:00:00Z"),
            ("status", "completed")] : Row).lookup f).isNone = true
        ∧ (∀ g ∈ pre, (([("transaction_id", "tx1"), ("sender_id", "u1"), ("receiver_id", "u2"),
            ("amount", "1"), ("timestamp", "2025-05-01T12:00:00Z"),
            ("status", "completed")] : Row).lookup g).isNone = false)
        ∧ validate_message [("transaction_id", "tx1"), ("sender_id", "u1"), ("receiver_id", "u2"),
            ("amount", "1"), ("timestamp", "2025-05-01T12:00:00Z"), ("status", "completed")]
            = (false, some ("Missing field: " ++ f))
        ∧ (∀ body, queue_ingest ⟨[], []⟩ [("transaction_id", "tx1"), ("sender_id", "u1"),
            ("receiver_id", "u2"), ("amount", "1"), ("timestamp", "2025-05-01T12:00:00Z"),
            ("status", "completed")] body
            = (save_rejected_record ⟨[], []⟩ ("Missing field: " ++ f) body "queue",
               Outcome.quarantined ("Missing field: " ++ f), []))) :=
  c3_missing_field_first ⟨[], []⟩ _ _ (by decide) (by decide)

/-- C3 counterexample: a record whose `transaction_id` is present but empty
passes the queue-path validator entirely, so on the queue path an empty
required field does not yield `Invalid("Missing field: ...")` and the record
is not quarantined — the claim does not hold on both ingestion paths. -/
theorem c3_missing_field_first_counterexample :
    Row.get [("transaction_id", ""), ("sender_id", "user1"), ("receiver_id", "user2"),
        ("amount", "250.00"), ("currency", "USD"), ("timestamp", "2025-05-01T12:00:00Z"),
        ("status", "completed")] "transaction_id" = ""
      ∧ validate_message [("transaction_id", ""), ("sender_id", "user1"), ("receiver_id", "user2"),
          ("amount", "250.00"), ("currency", "USD"), ("timestamp", "2025-05-01T12:00:00Z"),
          ("status", "completed")] = (true, none) := by
  refine ⟨by decide, by decide⟩

/-- C10 (amended): on a record whose required fields are all present and
non-empty, the validator accepts the amount exactly when Python `float`
parses it — including the non-finite values inf and nan, which are accepted
(the original claim's finiteness requirement is not checked); a parse failure
yields Invalid with the parser's error text; the parsed value itself is never
inspected, so no positivity or magnitude check is performed. -/
theorem c10_amount_parsing (row : Row)
    (hpresent : requiredFields.all (fun f => !(Row.get row f == "")) = true) :
    (∀ e, pyFloat (Row.get row "amount") = Except.error e →
        validate_row row = (false, some e))
    ∧ (∀ v, pyFloat (Row.get row "amount") = Except.ok v →
        validate_row row =
          (match fromisoformat (pyReplace (Row.get row "timestamp") "Z" "+00:00") with
           | .error e2 => (false, some e2)
           | .ok _ =>
             if statusValues.contains (Row.get row "status") then (true, none)
             else (false, some ("Invalid status: " ++ Row.get row "status"))))
    ∧ pyFloat "inf" = Except.ok PyFloat.inf
    ∧ pyFloat "nan" = Except.ok PyFloat.nan
    ∧ pyFloat "-1" = Except.ok (PyFloat.finite (-1))
    ∧ pyFloat "0" = Except.ok (PyFloat.finite 0) := by
  have hfind := csv_find_none_of_present row hpresent
  refine ⟨?_, ?_, rfl, rfl, rfl, rfl⟩
  · intro e he
    unfold validate_row
    rw [hfind, he]
  · intro v hv
    unfold validate_row
    rw [hfind, hv]

/-- C10 witness: on a record with amount `-1`, a record with amount `abc`,
and a record with amount `inf`, the validator behaves as the amended claim
states. -/
theorem c10_amount_parsing_witness :
    validate_row [("transaction_id", "t1"), ("sender_id", "u1"), ("receiver_id", "u2"),
        ("amount", "abc"), ("currency", "USD"), ("timestamp", "2025-05-01T12:00:00Z"),
        ("status", "completed")]
      = (false, some "could not convert string to float: \x27abc\x27")
    ∧ pyFloat "inf" = Except.ok PyFloat.inf := by
  have h := c10_amount_parsing
    [("transaction_id", "t1"), ("sender_id", "u1"), ("receiver_id", "u2"),
     ("amount", "abc"), ("currency", "USD"), ("timestamp", "2025-05-01T12:00:00Z"),
     ("status", "completed")] (by decide)
  exact ⟨h.1 "could not convert string to float: \x27abc\x27" rfl, h.2.2.1⟩

/-- C10 counterexample: the amount `inf` parses to a non-finite value and the
validator nevertheless accepts the record as valid, so a non-finite amount is
accepted, contrary to the claim. -/
theorem c10_amount_parsing_counterexample :
    pyFloat "inf" = Except.ok PyFloat.inf
      ∧ validate_row [("transaction_id", "t1"), ("sender_id", "u1"), ("receiver_id", "u2"),
          ("amount", "inf"), ("currency", "USD"), ("timestamp", "2025-05-01T12:00:00Z"),
          ("status", "completed")] = (true, none) := by
  refine ⟨rfl, by decide⟩

/-- C1: idempotent application per transaction id.  For every raw record that
both path validators accept and whose id is not yet in the ledger: on the CSV
path a batch containing the record twice yields Accepted then Duplicate and
commits exactly one transaction with that id, and a second one-record run over
the resulting ledger yields Duplicate leaving the durable state unchanged (no
quarantine, no overwrite, no error); on the queue path the first ingest yields
Accepted, the second yields Duplicate and returns the database unchanged. -/
theorem c1_idempotent_per_id (db : DB) (row : Row)
    (hv : validate_row row = (true, none))
    (hm : validate_message row = (true, none))
    (hfresh : db.transactions.any (fun t => t.id == Row.get row "transaction_id") = false) :
    ∃ tx, buildTx row = Except.ok tx
      ∧ tx.id = Row.get row "transaction_id"
      ∧ (import_csv none db [row, row]).2.1.outcomes = [Outcome.accepted, Outcome.duplicate]
      ∧ (import_csv none db [row, row]).2.2 = none
      ∧ (import_csv none db [row, row]).1.transactions = db.transactions ++ [tx]
      ∧ (import_csv none db [row, row]).1.rejected = db.rejected
      ∧ ((import_csv none db [row, row]).1.transactions.filter
          (fun t => t.id == Row.get row "transaction_id")).length = 1
      ∧ import_csv none (DB.mk (db.transactions ++ [tx]) db.rejected) [row]
          = (DB.mk (db.transactions ++ [tx]) db.rejected,
             ⟨[], [], [Outcome.duplicate], []⟩, none)
      ∧ (∀ body, queue_ingest db row body
          = (DB.mk (db.transactions ++ [tx]) db.rejected, Outcome.accepted, []))
      ∧ (∀ body, queue_ingest (DB.mk (db.transactions ++ [tx]) db.rejected) row body
          = (DB.mk (db.transactions ++ [tx]) db.rejected, Outcome.duplicate, [])) := by
  have hfresh0 : (db.transactions ++ (CsvState.init.pendingTx)).any
      (fun t => t.id == Row.get row "transaction_id") = false := by
    simpa [CsvState.init] using hfresh
  obtain ⟨tx, hb, hid, hamt, hstep1⟩ := csvStep_valid_fresh db CsvState.init row hv hfresh0
  have hbeq : (tx.id == Row.get row "transaction_id") = true := by
    rw [hid]
    exact beq_self_eq_true _
  have hfilter0 : db.transactions.filter (fun t => t.id == Row.get row "transaction_id") = [] := by
    rw [List.filter_eq_nil_iff]
    intro t ht
    have := List.any_eq_false.mp hfresh t ht
    simpa using this
  constructor
  case w => exact tx
  have hdup2 : (db.transactions ++ (CsvState.init.pendingTx ++ [tx])).any
      (fun t => t.id == Row.get row "transaction_id") = true := by
    simp [CsvState.init, hbeq]
  have hstep2 := csvStep_valid_dup db
    { CsvState.init with
      pendingTx := CsvState.init.pendingTx ++ [tx],
      outcomes := CsvState.init.outcomes ++ [Outcome.accepted],
      signals := CsvState.init.signals ++
        (if tx.amount.gtNat SUSPICIOUS_AMOUNT then [Row.get row "transaction_id"] else []) }
    row hv hdup2
  have hloop : csvLoop db none 0 CsvState.init [row, row] =
      ({ CsvState.init with
        pendingTx := CsvState.init.pendingTx ++ [tx],
        outcomes := (CsvState.init.outcomes ++ [Outcome.accepted]) ++ [Outcome.duplicate],
        signals := CsvState.init.signals ++
          (if tx.amount.gtNat SUSPICIOUS_AMOUNT then [Row.get row "transaction_id"] else []) },
       none) := by
    unfold csvLoop
    rw [show (none == some 0 : Bool) = false from rfl, hstep1]
    unfold csvLoop
    rw [show (none == some 1 : Bool) = false from rfl, hstep2]
    rfl
  have himp : import_csv none db [row, row] =
      (DB.mk (db.transactions ++ [tx]) db.rejected,
       { CsvState.init with
        pendingTx := CsvState.init.pendingTx ++ [tx],
        outcomes := (CsvState.init.outcomes ++ [Outcome.accepted]) ++ [Outcome.duplicate],
        signals := CsvState.init.signals ++
          (if tx.amount.gtNat SUSPICIOUS_AMOUNT then [Row.get row "transaction_id"] else []) },
       none) := by
    unfold import_csv
    rw [hloop]
    simp [CsvState.init]
  refine ⟨hb, hid, ?_, ?_, ?_, ?_, ?_, ?_, ?_, ?_⟩
  · rw [himp]
    simp [CsvState.init]
  · rw [himp]
  · rw [himp]
  · rw [himp]
  · rw [himp]
    simp [List.filter_append, hfilter0, hbeq]
  · have hfr2 : ((db.transactions ++ [tx]) ++ (CsvState.init.pendingTx)).any
        (fun t => t.id == Row.get row "transaction_id") = true := by
      simp [CsvState.init, hbeq]
    have hstep := csvStep_valid_dup (DB.mk (db.transactions ++ [tx]) db.rejected)
      CsvState.init row hv hfr2
    have hloop2 : csvLoop (DB.mk (db.transactions ++ [tx]) db.rejected) none 0
        CsvState.init [row] = (⟨[], [], [Outcome.duplicate], []⟩, none) := by
      unfold csvLoop
      rw [show (none == some 0 : Bool) = false from rfl, hstep]
      rfl
    unfold import_csv
    rw [hloop2]
    simp
  · intro body
    have hq := queue_ingest_fresh db row body hm hfresh
    obtain ⟨tx2, hb2, _, _, hrun⟩ := hq
    have htx : tx2 = tx := by
      rw [hb] at hb2
      exact (Except.ok.injEq _ _).mp hb2.symm
    rw [hrun, htx]
  · intro body
    have hdupq : (db.transactions ++ [tx]).any
        (fun t => t.id == Row.get row "transaction_id") = true := by
      simp [hbeq]
    exact queue_ingest_dup (DB.mk (db.transactions ++ [tx]) db.rejected) row body hm hdupq

/-- C1 witness: a concrete valid record ingested twice on the CSV path and
twice on the queue path, with the stated outcomes. -/
theorem c1_idempotent_per_id_witness :
    (import_csv none ⟨[], []⟩
        [[("transaction_id", "tx100"), ("sender_id", "user1"), ("receiver_id", "user2"),
          ("amount", "250.00"), ("currency", "USD"), ("timestamp", "2025-05-01T12:00:00Z"),
          ("status", "completed")],
         [("transaction_id", "tx100"), ("sender_id", "user1"), ("receiver_id", "user2"),
          ("amount", "250.00"), ("currency", "USD"), ("timestamp", "2025-05-01T12:00:00Z"),
          ("status", "completed")]]).2.1.outcomes = [Outcome.accepted, Outcome.duplicate]
      ∧ ((import_csv none ⟨[], []⟩
          [[("transaction_id", "tx100"), ("sender_id", "user1"), ("receiver_id", "user2"),
            ("amount", "250.00"), ("currency", "USD"), ("timestamp", "2025-05-01T12:00:00Z"),
            ("status", "completed")],
           [("transaction_id", "tx100"), ("sender_id", "user1"), ("receiver_id", "user2"),
            ("amount", "250.00"), ("currency", "USD"), ("timestamp", "2025-05-01T12:00:00Z"),
            ("status", "completed")]]).1.transactions.filter
          (fun t => t.id == Row.get
            [("transaction_id", "tx100"), ("sender_id", "user1"), ("receiver_id", "user2"),
             ("amount", "250.00"), ("currency", "USD"), ("timestamp", "2025-05-01T12:00:00Z"),
             ("status", "completed")] "transaction_id")).length = 1 := by
  obtain ⟨tx, _, _, houts, _, _, _, hcount, _, _, _⟩ :=
    c1_idempotent_per_id ⟨[], []⟩
      [("transaction_id", "tx100"), ("sender_id", "user1"), ("receiver_id", "user2"),
       ("amount", "250.00"), ("currency", "USD"), ("timestamp", "2025-05-01T12:00:00Z"),
       ("status", "completed")]
      (by decide) (by decide) (by decide)
  exact ⟨houts, hcount⟩

/-- C6: ingestion never raises to the caller for validation-related failures.
On the CSV path a batch run with no storage failure always terminates without
a propagated exception, produces one outcome per input record, and each
invalid record is quarantined at its position with the validator's reason —
so a malformed record does not abort the batch.  On the queue path a body the
decoder cannot parse, and a decoded record the validator rejects, are both
quarantined with the caught error's description instead of raising. -/
theorem c6_never_raises_batch_continues :
    (∀ (db : DB) (rows : List Row),
        ∃ st, import_csv none db rows =
            (⟨db.transactions ++ st.pendingTx, db.rejected ++ st.pendingRej⟩, st, none)
          ∧ st.outcomes.length = rows.length
          ∧ (∀ j (hj : j < rows.length) e,
              validate_row (rows.get ⟨j, hj⟩) = (false, some e) →
              st.outcomes.get? j = some (Outcome.quarantined e)))
    ∧ (∀ (decode : String → Except String Row) (db : DB) (body : String) (e : String),
        decode body = Except.error e →
        callback decode db body
          = (save_rejected_record db e body "queue", Outcome.quarantined e, []))
    ∧ (∀ (decode : String → Except String Row) (db : DB) (body : String) (data : Row)
          (e : String),
        decode body = Except.ok data → validate_message data = (false, some e) →
        callback decode db body
          = (save_rejected_record db e body "queue", Outcome.quarantined e, [])) := by
  refine ⟨import_csv_none_spec, ?_, ?_⟩
  · intro decode db body e hdec
    unfold callback
    rw [hdec]
  · intro decode db body data e hdec hval
    unfold callback
    rw [hdec]
    show queue_ingest db data body = _
    unfold queue_ingest
    rw [hval]
    rfl

/-- C6 witness: a batch of one malformed and one valid record is fully
processed with no propagated error: the malformed record is quarantined and
the valid one still gets an outcome; a queue body the decoder rejects is
quarantined with the decode error. -/
theorem c6_never_raises_batch_continues_witness :
    (∃ st, import_csv none ⟨[], []⟩
          [[("transaction_id", "t1"), ("sender_id", "u1"), ("receiver_id", "u2"),
            ("amount", "not_a_number"), ("currency", "USD"),
            ("timestamp", "2025-05-01T12:00:00Z"), ("status", "completed")],
           [("transaction_id", "t2"), ("sender_id", "u1"), ("receiver_id", "u2"),
            ("amount", "5"), ("currency", "USD"),
            ("timestamp", "2025-05-01T12:00:00Z"), ("status", "completed")]]
        = (⟨[] ++ st.pendingTx, [] ++ st.pendingRej⟩, st, none)
        ∧ st.outcomes.length = 2
        ∧ st.outcomes.get? 0
          = some (Outcome.quarantined "could not convert string to float: \x27not_a_number\x27"))
    ∧ callback (fun _ => Except.error "Expecting value: line 1 column 1 (char 0)") ⟨[], []⟩ "oops"
        = (save_rejected_record ⟨[], []⟩ "Expecting value: line 1 column 1 (char 0)" "oops" "queue",
           Outcome.quarantined "Expecting value: line 1 column 1 (char 0)", []) := by
  constructor
  · obtain ⟨st, h1, h2, h3⟩ := c6_never_raises_batch_continues.1 ⟨[], []⟩
      [[("transaction_id", "t1"), ("sender_id", "u1"), ("receiver_id", "u2"),
        ("amount", "not_a_number"), ("currency", "USD"),
        ("timestamp", "2025-05-01T12:00:00Z"), ("status", "completed")],
       [("transaction_id", "t2"), ("sender_id", "u1"), ("receiver_id", "u2"),
        ("amount", "5"), ("currency", "USD"),
        ("timestamp", "2025-05-01T12:00:00Z"), ("status", "completed")]]
    exact ⟨st, h1, h2, h3 0 (by decide) _ rfl⟩
  · exact c6_never_raises_batch_continues.2.1 _ ⟨[], []⟩ "oops" _ rfl

/-- C7 (amended): a storage-layer failure during a CSV batch run — at any
record of the run or at the final commit — propagates to the caller, and the
durable ledger and quarantine stores are exactly the pre-run state: the
importer opens one session and commits once after the loop, so the records
processed earlier in the failed run are rolled back, not committed (the
original claim's "records already processed remain committed" is false). -/
theorem c7_store_failure_propagates (db : DB) (rows : List Row) (k : Nat)
    (hk : k ≤ rows.length) :
    (import_csv (some k) db rows).1 = db
      ∧ (import_csv (some k) db rows).2.2 = some "StoreUnavailable" :=
  import_csv_fail_spec db rows k hk

/-- C7 witness: a storage failure at the second record of a two-record run
propagates and leaves the durable state untouched. -/
theorem c7_store_failure_propagates_witness :
    (import_csv (some 1) ⟨[], []⟩
        [[("transaction_id", "a1"), ("sender_id", "u1"), ("receiver_id", "u2"),
          ("amount", "1"), ("currency", "USD"),
          ("timestamp", "2025-05-01T12:00:00Z"), ("status", "completed")],
         [("transaction_id", "a2"), ("sender_id", "u1"), ("receiver_id", "u2"),
          ("amount", "2"), ("currency", "USD"),
          ("timestamp", "2025-05-01T12:00:00Z"), ("status", "completed")]]).1 = ⟨[], []⟩
      ∧ (import_csv (some 1) ⟨[], []⟩
          [[("transaction_id", "a1"), ("sender_id", "u1"), ("receiver_id", "u2"),
            ("amount", "1"), ("currency", "USD"),
            ("timestamp", "2025-05-01T12:00:00Z"), ("status", "completed")],
           [("transaction_id", "a2"), ("sender_id", "u1"), ("receiver_id", "u2"),
            ("amount", "2"), ("currency", "USD"),
            ("timestamp", "2025-05-01T12:00:00Z"), ("status", "completed")]]).2.2
        = some "StoreUnavailable" :=
  c7_store_failure_propagates ⟨[], []⟩ _ 1 (by decide)

/-- C7 counterexample: with a storage failure injected at the second record,
the first record of the batch had already been processed and accepted, yet
the durable ledger does not contain it afterwards (the run commits once at
the end, so nothing of the failed run is persisted); the same single record
does commit when no failure occurs.  This refutes "records already processed
earlier in that batch run remain committed". -/
theorem c7_store_failure_propagates_counterexample :
    (import_csv (some 1) ⟨[], []⟩
        [[("transaction_id", "a1"), ("sender_id", "u1"), ("receiver_id", "u2"),
          ("amount", "1"), ("currency", "USD"),
          ("timestamp", "2025-05-01T12:00:00Z"), ("status", "completed")],
         [("transaction_id", "a2"), ("sender_id", "u1"), ("receiver_id", "u2"),
          ("amount", "2"), ("currency", "USD"),
          ("timestamp", "2025-05-01T12:00:00Z"), ("status", "completed")]]).2.1.outcomes
      = [Outcome.accepted]
    ∧ (import_csv (some 1) ⟨[], []⟩
        [[("transaction_id", "a1"), ("sender_id", "u1"), ("receiver_id", "u2"),
          ("amount", "1"), ("currency", "USD"),
          ("timestamp", "2025-05-01T12:00:00Z"), ("status", "completed")],
         [("transaction_id", "a2"), ("sender_id", "u1"), ("receiver_id", "u2"),
          ("amount", "2"), ("currency", "USD"),
          ("timestamp", "2025-05-01T12:00:00Z"), ("status", "completed")]]).1.transactions
      = []
    ∧ (import_csv none ⟨[], []⟩
        [[("transaction_id", "a1"), ("sender_id", "u1"), ("receiver_id", "u2"),
          ("amount", "1"), ("currency", "USD"),
          ("timestamp", "2025-05-01T12:00:00Z"), ("status", "completed")]]).1.transactions.length
      = 1 := by
  refine ⟨by decide, by decide, by decide⟩

/-- C8 (amended): a rejected record's quarantine entry carries source "csv"
on the batch path and "queue" on the streaming path; on the queue path the
payload is the received body verbatim, while on the CSV path the payload is
the Python `str()` rendering of the parsed row dict — not the raw CSV line as
received (the original claim's "byte-for-byte the input as received" fails on
the CSV path). -/
theorem c8_quarantine_payload_source (db : DB) (row : Row) (e : String)
    (h : validate_row row = (false, some e)) :
    (import_csv none db [row]).1.rejected = db.rejected ++ [⟨e, pyStrDict row, "csv"⟩]
    ∧ (∀ (decode : String → Except String Row) (body e2 : String),
        decode body = Except.error e2 →
        (callback decode db body).1.rejected = db.rejected ++ [⟨e2, body, "queue"⟩])
    ∧ (∀ (decode : String → Except String Row) (body : String) (data : Row) (e2 : String),
        decode body = Except.ok data → validate_message data = (false, some e2) →
        (callback decode db body).1.rejected = db.rejected ++ [⟨e2, body, "queue"⟩]) := by
  refine ⟨?_, ?_, ?_⟩
  · rw [import_csv_single_invalid db row h]
  · intro decode body e2 hdec
    unfold callback
    rw [hdec]
    rfl
  · intro decode body data e2 hdec hval
    unfold callback
    rw [hdec]
    show (queue_ingest db data body).1.rejected = _
    unfold queue_ingest
    rw [hval]
    rfl

/-- C8 witness: a record with a non-numeric amount quarantined on both paths,
with the stated payloads and source tags. -/
theorem c8_quarantine_payload_source_witness :
    (import_csv none ⟨[], []⟩
        [[("transaction_id", "t1"), ("sender_id", "u1"), ("receiver_id", "u2"),
          ("amount", "not_a_number"), ("currency", "USD"),
          ("timestamp", "2025-05-01T12:00:00Z"), ("status", "completed")]]).1.rejected
      = ([] : List RejectedRecord) ++
        [⟨"could not convert string to float: \x27not_a_number\x27",
          pyStrDict [("transaction_id", "t1"), ("sender_id", "u1"), ("receiver_id", "u2"),
            ("amount", "not_a_number"), ("currency", "USD"),
            ("timestamp", "2025-05-01T12:00:00Z"), ("status", "completed")], "csv"⟩]
    ∧ (callback (fun _ => Except.error "bad json") ⟨[], []⟩ "rawbody").1.rejected
      = ([] : List RejectedRecord) ++ [⟨"bad json", "rawbody", "queue"⟩] := by
  have h := c8_quarantine_payload_source ⟨[], []⟩
    [("transaction_id", "t1"), ("sender_id", "u1"), ("receiver_id", "u2"),
     ("amount", "not_a_number"), ("currency", "USD"),
     ("timestamp", "2025-05-01T12:00:00Z"), ("status", "completed")]
    "could not convert string to float: \x27not_a_number\x27" (by decide)
  exact ⟨h.1, h.2.1 _ "rawbody" "bad json" rfl⟩

/-- C8 counterexample: a CSV line with a non-numeric amount is quarantined
with a payload that is the Python `str()` of the parsed row dict, which is
not byte-for-byte the input line as received. -/
theorem c8_quarantine_payload_source_counterexample :
    (import_csv_file none ⟨[], []⟩ requiredFields
        ["t1,u1,u2,not_a_number,USD,2025-05-01T12:00:00Z,completed"]).1.rejected
      = [⟨"could not convert string to float: \x27not_a_number\x27",
          pyStrDict (parseCsvLine requiredFields
            "t1,u1,u2,not_a_number,USD,2025-05-01T12:00:00Z,completed"), "csv"⟩]
    ∧ pyStrDict (parseCsvLine requiredFields
        "t1,u1,u2,not_a_number,USD,2025-05-01T12:00:00Z,completed")
      ≠ "t1,u1,u2,not_a_number,USD,2025-05-01T12:00:00Z,completed" := by
  refine ⟨by decide, by decide⟩

theorem import_csv_single_fresh (db : DB) (row : Row)
    (hv : validate_row row = (true, none))
    (hfresh : db.transactions.any (fun t => t.id == Row.get row "transaction_id") = false) :
    ∃ tx, buildTx row = Except.ok tx
      ∧ tx.id = Row.get row "transaction_id"
      ∧ import_csv none db [row] =
          (DB.mk (db.transactions ++ [tx]) db.rejected,
           ⟨[tx], [], [Outcome.accepted],
            if tx.amount.gtNat SUSPICIOUS_AMOUNT then [Row.get row "transaction_id"] else []⟩,
           none) := by
  have hfresh0 : (db.transactions ++ (CsvState.init.pendingTx)).any
      (fun t => t.id == Row.get row "transaction_id") = false := by
    simpa [CsvState.init] using hfresh
  obtain ⟨tx, hb, hid, hamt, hstep1⟩ := csvStep_valid_fresh db CsvState.init row hv hfresh0
  refine ⟨tx, hb, hid, ?_⟩
  have hloop : csvLoop db none 0 CsvState.init [row] =
      ({ CsvState.init with
        pendingTx := CsvState.init.pendingTx ++ [tx],
        outcomes := CsvState.init.outcomes ++ [Outcome.accepted],
        signals := CsvState.init.signals ++
          (if tx.amount.gtNat SUSPICIOUS_AMOUNT then [Row.get row "transaction_id"] else []) },
       none) := by
    unfold csvLoop
    rw [show (none == some 0 : Bool) = false from rfl, hstep1]
    rfl
  unfold import_csv
  rw [hloop]
  simp [CsvState.init]

/-- C9 (amended): a valid record whose parsed amount exceeds the threshold is
accepted and persisted exactly as any other valid record on both paths — the
stored transaction is `buildTx row`, with no dependence of persistence on the
threshold comparison; the CSV path emits the advisory suspicious signal
exactly when the parsed amount exceeds the threshold, while the queue path
emits no suspicious signal at all (the original claim's "this holds on both
paths" fails: only the CSV importer has the suspicious-amount logic). -/
theorem c9_suspicious_advisory (db : DB) (row : Row)
    (hv : validate_row row = (true, none))
    (hm : validate_message row = (true, none))
    (hfresh : db.transactions.any (fun t => t.id == Row.get row "transaction_id") = false) :
    ∃ tx, buildTx row = Except.ok tx
      ∧ (import_csv none db [row]).1.transactions = db.transactions ++ [tx]
      ∧ (import_csv none db [row]).1.rejected = db.rejected
      ∧ (import_csv none db [row]).2.1.outcomes = [Outcome.accepted]
      ∧ (import_csv none db [row]).2.2 = none
      ∧ (import_csv none db [row]).2.1.signals
          = (if tx.amount.gtNat SUSPICIOUS_AMOUNT then [Row.get row "transaction_id"] else [])
      ∧ (∀ body, queue_ingest db row body
          = (DB.mk (db.transactions ++ [tx]) db.rejected, Outcome.accepted, [])) := by
  obtain ⟨tx, hb, hid, himp⟩ := import_csv_single_fresh db row hv hfresh
  refine ⟨tx, hb, ?_, ?_, ?_, ?_, ?_, ?_⟩
  · rw [himp]
  · rw [himp]
  · rw [himp]
  · rw [himp]
  · rw [himp]
  · intro body
    obtain ⟨tx2, hb2, _, _, hrun⟩ := queue_ingest_fresh db row body hm hfresh
    have htx : tx2 = tx := by
      rw [hb] at hb2
      exact (Except.ok.injEq _ _).mp hb2.symm
    rw [hrun, htx]

/-- C9 witness: a valid 20000-amount record is accepted and persisted on the
CSV path and flagged suspicious there. -/
theorem c9_suspicious_advisory_witness :
    ∃ tx, buildTx [("transaction_id", "big1"), ("sender_id", "u1"), ("receiver_id", "u2"),
        ("amount", "20000.00"), ("currency", "USD"),
        ("timestamp", "2025-05-01T12:00:00Z"), ("status", "completed")] = Except.ok tx
      ∧ (import_csv none ⟨[], []⟩
          [[("transaction_id", "big1"), ("sender_id", "u1"), ("receiver_id", "u2"),
            ("amount", "20000.00"), ("currency", "USD"),
            ("timestamp", "2025-05-01T12:00:00Z"), ("status", "completed")]]).1.transactions
          = ([] : List Transaction) ++ [tx]
      ∧ (import_csv none ⟨[], []⟩
          [[("transaction_id", "big1"), ("sender_id", "u1"), ("receiver_id", "u2"),
            ("amount", "20000.00"), ("currency", "USD"),
            ("timestamp", "2025-05-01T12:00:00Z"), ("status", "completed")]]).2.1.outcomes
          = [Outcome.accepted] := by
  obtain ⟨tx, hb, h1, _, h3, _, _, _⟩ := c9_suspicious_advisory ⟨[], []⟩
    [("transaction_id", "big1"), ("sender_id", "u1"), ("receiver_id", "u2"),
     ("amount", "20000.00"), ("currency", "USD"),
     ("timestamp", "2025-05-01T12:00:00Z"), ("status", "completed")]
    (by decide) (by decide) (by decide)
  exact ⟨tx, hb, h1, h3⟩

/-- C9 counterexample: a valid record whose parsed amount 20000 exceeds the
threshold is accepted on the queue path with no suspicious signal emitted,
while the same record on the CSV path does emit one — the claim's "the
pipeline emits a side-channel suspicious signal ... on both the csv and the
queue ingestion path" is false for the queue path. -/
theorem c9_suspicious_advisory_counterexample :
    (pyFloatCore "20000.00").map (fun v => v.gtNat SUSPICIOUS_AMOUNT) = some true
    ∧ (callback (fun _ => Except.ok
        [("transaction_id", "big1"), ("sender_id", "u1"), ("receiver_id", "u2"),
         ("amount", "20000.00"), ("currency", "USD"),
         ("timestamp", "2025-05-01T12:00:00Z"), ("status", "completed")]) ⟨[], []⟩ "b").2.1
      = Outcome.accepted
    ∧ (callback (fun _ => Except.ok
        [("transaction_id", "big1"), ("sender_id", "u1"), ("receiver_id", "u2"),
         ("amount", "20000.00"), ("currency", "USD"),
         ("timestamp", "2025-05-01T12:00:00Z"), ("status", "completed")]) ⟨[], []⟩ "b").2.2
      = ([] : List String)
    ∧ (import_csv none ⟨[], []⟩
        [[("transaction_id", "big1"), ("sender_id", "u1"), ("receiver_id", "u2"),
          ("amount", "20000.00"), ("currency", "USD"),
          ("timestamp", "2025-05-01T12:00:00Z"), ("status", "completed")]]).2.1.signals
      = ["big1"] := by
  refine ⟨by decide, by decide, by decide, by decide⟩

/-- C4 (amended): `get_payments_by_user` returns exactly the transactions
where the user is sender or receiver and the timestamp is within the bounds,
ordered by timestamp ascending, and an empty sequence (not an error) when
nothing matches — with the start bound inclusive in both branches, but the
end bound EXCLUSIVE (timestamp < end) in the default self-managed-session
branch and inclusive (timestamp <= end) only in the passed-session branch
(the original claim's unconditional "timestamp <= end, inclusive" is false
for the default branch). -/
theorem c4_payments_by_user (uid : String) (s e : Option PyDate) (txs : List Transaction) :
    ((get_payments_by_user_default uid s e txs).Perm
        (txs.filter (fun t => txInvolvesUser uid t && afterStart s t.timestamp
          && beforeEndExcl e t.timestamp))
      ∧ List.Sorted tsLe (get_payments_by_user_default uid s e txs)
      ∧ (∀ t, t ∈ get_payments_by_user_default uid s e txs ↔
          t ∈ txs ∧ (t.sender_id = uid ∨ t.receiver_id = uid)
            ∧ afterStart s t.timestamp = true ∧ beforeEndExcl e t.timestamp = true))
    ∧ ((get_payments_by_user_db uid s e txs).Perm
        (txs.filter (fun t => txInvolvesUser uid t && afterStart s t.timestamp
          && beforeEndIncl e t.timestamp))
      ∧ List.Sorted tsLe (get_payments_by_user_db uid s e txs)
      ∧ (∀ t, t ∈ get_payments_by_user_db uid s e txs ↔
          t ∈ txs ∧ (t.sender_id = uid ∨ t.receiver_id = uid)
            ∧ afterStart s t.timestamp = true ∧ beforeEndIncl e t.timestamp = true))
    ∧ ((∀ t ∈ txs, txInvolvesUser uid t = false) →
        get_payments_by_user_default uid s e txs = []
          ∧ get_payments_by_user_db uid s e txs = []) := by
  have hperm1 := List.perm_insertionSort tsLe
    (txs.filter (fun t => txInvolvesUser uid t && afterStart s t.timestamp
      && beforeEndExcl e t.timestamp))
  have hperm2 := List.perm_insertionSort tsLe
    (txs.filter (fun t => txInvolvesUser uid t && afterStart s t.timestamp
      && beforeEndIncl e t.timestamp))
  refine ⟨⟨hperm1, List.sorted_insertionSort tsLe _, ?_⟩,
          ⟨hperm2, List.sorted_insertionSort tsLe _, ?_⟩, ?_⟩
  · intro t
    rw [get_payments_by_user_default, hperm1.mem_iff, List.mem_filter]
    simp [txInvolvesUser, and_assoc]
  · intro t
    rw [get_payments_by_user_db, hperm2.mem_iff, List.mem_filter]
    simp [txInvolvesUser, and_assoc]
  · intro hnone
    have hf1 : txs.filter (fun t => txInvolvesUser uid t && afterStart s t.timestamp
        && beforeEndExcl e t.timestamp) = [] := by
      rw [List.filter_eq_nil_iff]
      intro t ht
      simp [hnone t ht]
    have hf2 : txs.filter (fun t => txInvolvesUser uid t && afterStart s t.timestamp
        && beforeEndIncl e t.timestamp) = [] := by
      rw [List.filter_eq_nil_iff]
      intro t ht
      simp [hnone t ht]
    constructor
    · unfold get_payments_by_user_default
      rw [hf1]
      rfl
    · unfold get_payments_by_user_db
      rw [hf2]
      rfl

/-- C4 witness: on the three-transaction test ledger the passed-session branch
returns all of user1's transactions sorted by timestamp, and a user with no
transactions gets an empty sequence. -/
theorem c4_payments_by_user_witness :
    List.Sorted tsLe (get_payments_by_user_db "user1" none none
      [⟨"tx1", "user1", "user2", .finite 100, "USD", ⟨2025, 5, 1, 12, 0, 0⟩, .completed⟩,
       ⟨"tx2", "user2", "user1", .finite 200, "USD", ⟨2025, 5, 2, 13, 0, 0⟩, .pending⟩,
       ⟨"tx3", "user1", "user2", .finite 300, "USD", ⟨2025, 5, 2, 14, 0, 0⟩, .failed⟩])
    ∧ get_payments_by_user_default "nobody" none none
      [⟨"tx1", "user1", "user2", .finite 100, "USD", ⟨2025, 5, 1, 12, 0, 0⟩, .completed⟩,
       ⟨"tx2", "user2", "user1", .finite 200, "USD", ⟨2025, 5, 2, 13, 0, 0⟩, .pending⟩,
       ⟨"tx3", "user1", "user2", .finite 300, "USD", ⟨2025, 5, 2, 14, 0, 0⟩, .failed⟩] = [] := by
  constructor
  · exact (c4_payments_by_user "user1" none none _).2.1.2.1
  · exact ((c4_payments_by_user "nobody" none none _).2.2 (by decide)).1

/-- C4 counterexample: a transaction at exactly midnight of the end date is
involved with the user and satisfies timestamp <= end, yet the default branch
(no session passed) returns the empty sequence, because its end bound is
exclusive; the passed-session branch returns it.  So "timestamp <= end
(inclusive, when given)" is false for `get_payments_by_user` as a whole. -/
theorem c4_payments_by_user_counterexample :
    txInvolvesUser "u1"
        ⟨"t1", "u1", "u2", .finite 5, "USD", ⟨2025, 5, 3, 0, 0, 0⟩, .completed⟩ = true
    ∧ PyDateTime.leb ⟨2025, 5, 3, 0, 0, 0⟩ (PyDate.midnight ⟨2025, 5, 3⟩) = true
    ∧ get_payments_by_user_default "u1" none (some ⟨2025, 5, 3⟩)
        [⟨"t1", "u1", "u2", .finite 5, "USD", ⟨2025, 5, 3, 0, 0, 0⟩, .completed⟩] = []
    ∧ get_payments_by_user_db "u1" none (some ⟨2025, 5, 3⟩)
        [⟨"t1", "u1", "u2", .finite 5, "USD", ⟨2025, 5, 3, 0, 0, 0⟩, .completed⟩]
      = [⟨"t1", "u1", "u2", .finite 5, "USD", ⟨2025, 5, 3, 0, 0, 0⟩, .completed⟩] := by
  refine ⟨by decide, by decide, by decide, by decide⟩

/-- C5: `get_daily_totals` emits one entry per calendar day with in-range
activity of the user, sorted ascending by day with no duplicate day; a day is
present exactly when the user sent or received at least one in-range
transaction that day (a day with no activity is omitted, never emitted as
zero/zero); each entry's `total_sent` is the sum of the user's sent amounts
of that day, `total_received` the received sum, and a side with no activity
that day reports 0.0. -/
theorem c5_daily_totals (uid : String) (s e : Option PyDate) (txs : List Transaction) :
    List.Sorted dayLe ((get_daily_totals uid s e txs).map DailyTotal.day)
    ∧ ((get_daily_totals uid s e txs).map DailyTotal.day).Nodup
    ∧ (∀ d, d ∈ (get_daily_totals uid s e txs).map DailyTotal.day ↔
        ∃ t, t ∈ txs ∧ (t.sender_id = uid ∨ t.receiver_id = uid)
          ∧ afterStart s t.timestamp = true ∧ beforeEndExcl e t.timestamp = true
          ∧ t.timestamp.dateOf = d)
    ∧ (∀ en ∈ get_daily_totals uid s e txs,
        en.total_sent = pfSum ((txs.filter (fun t => (t.timestamp.dateOf == en.day)
            && ((t.sender_id == uid)
              && (afterStart s t.timestamp && beforeEndExcl e t.timestamp)))).map
          (fun t => t.amount))
        ∧ en.total_received = pfSum ((txs.filter (fun t => (t.timestamp.dateOf == en.day)
            && ((t.receiver_id == uid)
              && (afterStart s t.timestamp && beforeEndExcl e t.timestamp)))).map
          (fun t => t.amount)))
    ∧ (∀ en ∈ get_daily_totals uid s e txs,
        ((∀ t ∈ txs, ((t.timestamp.dateOf == en.day)
            && ((t.sender_id == uid)
              && (afterStart s t.timestamp && beforeEndExcl e t.timestamp))) = false) →
          en.total_sent = PyFloat.finite 0)
        ∧ ((∀ t ∈ txs, ((t.timestamp.dateOf == en.day)
            && ((t.receiver_id == uid)
              && (afterStart s t.timestamp && beforeEndExcl e t.timestamp))) = false) →
          en.total_received = PyFloat.finite 0)) := by
  have key : ∀ (p : Transaction → Bool) (d : Day),
      (match (groupSumByDay (txs.filter p)).lookup d with
       | some v => v
       | none => PyFloat.finite 0)
      = pfSum ((txs.filter (fun t => (t.timestamp.dateOf == d) && p t)).map
          (fun t => t.amount)) := by
    intro p d
    by_cases hd : d ∈ (txs.filter p).map (fun t => t.timestamp.dateOf)
    · rw [groupSum_lookup, if_pos hd]
      show pfSum _ = _
      rw [List.filter_filter]
    · rw [groupSum_lookup, if_neg hd]
      have hnil : txs.filter (fun t => (t.timestamp.dateOf == d) && p t) = [] := by
        rw [List.filter_eq_nil_iff]
        intro t ht hcon
        rw [Bool.and_eq_true] at hcon
        exact hd (List.mem_map.mpr
          ⟨t, List.mem_filter.mpr ⟨ht, hcon.2⟩, by simpa using hcon.1⟩)
      rw [hnil]
      rfl
  have hout : get_daily_totals uid s e txs =
      (List.insertionSort dayLe
        (((groupSumByDay (txs.filter (fun t => (t.sender_id == uid)
            && (afterStart s t.timestamp && beforeEndExcl e t.timestamp)))).map Prod.fst
          ++ (groupSumByDay (txs.filter (fun t => (t.receiver_id == uid)
            && (afterStart s t.timestamp && beforeEndExcl e t.timestamp)))).map
            Prod.fst).dedup)).map
        (mergeTotals
          (groupSumByDay (txs.filter (fun t => (t.sender_id == uid)
            && (afterStart s t.timestamp && beforeEndExcl e t.timestamp))))
          (groupSumByDay (txs.filter (fun t => (t.receiver_id == uid)
            && (afterStart s t.timestamp && beforeEndExcl e t.timestamp))))) := rfl
  rw [hout]
  set psent : Transaction → Bool := fun t => (t.sender_id == uid)
    && (afterStart s t.timestamp && beforeEndExcl e t.timestamp) with hpsent
  set precv : Transaction → Bool := fun t => (t.receiver_id == uid)
    && (afterStart s t.timestamp && beforeEndExcl e t.timestamp) with hprecv
  set SS := groupSumByDay (txs.filter psent) with hSS
  set RS := groupSumByDay (txs.filter precv) with hRS
  set DS := (SS.map Prod.fst ++ RS.map Prod.fst).dedup with hDS
  have hmapday : ((List.insertionSort dayLe DS).map (mergeTotals SS RS)).map DailyTotal.day
      = List.insertionSort dayLe DS := by
    rw [List.map_map]
    have hc : (DailyTotal.day ∘ mergeTotals SS RS) = fun d => d := by
      funext d
      rfl
    rw [hc]
    simp
  have hnodupDS : DS.Nodup := by
    rw [hDS]
    exact List.nodup_dedup _
  have hmemDS : ∀ d : Day, d ∈ DS ↔
      ((∃ t, t ∈ txs ∧ psent t = true ∧ t.timestamp.dateOf = d)
        ∨ (∃ t, t ∈ txs ∧ precv t = true ∧ t.timestamp.dateOf = d)) := by
    intro d
    rw [hDS, List.mem_dedup, List.mem_append, hSS, hRS, groupSum_keys, groupSum_keys,
      List.mem_dedup, List.mem_dedup, List.mem_map, List.mem_map]
    constructor
    · rintro (⟨t, ht, hd⟩ | ⟨t, ht, hd⟩)
      · exact Or.inl ⟨t, (List.mem_filter.mp ht).1, (List.mem_filter.mp ht).2, hd⟩
      · exact Or.inr ⟨t, (List.mem_filter.mp ht).1, (List.mem_filter.mp ht).2, hd⟩
    · rintro (⟨t, ht, hp, hd⟩ | ⟨t, ht, hp, hd⟩)
      · exact Or.inl ⟨t, List.mem_filter.mpr ⟨ht, hp⟩, hd⟩
      · exact Or.inr ⟨t, List.mem_filter.mpr ⟨ht, hp⟩, hd⟩
  have hentry : ∀ en ∈ (List.insertionSort dayLe DS).map (mergeTotals SS RS),
      en.total_sent = pfSum ((txs.filter (fun t => (t.timestamp.dateOf == en.day)
          && psent t)).map (fun t => t.amount))
      ∧ en.total_received = pfSum ((txs.filter (fun t => (t.timestamp.dateOf == en.day)
          && precv t)).map (fun t => t.amount)) := by
    intro en hen
    obtain ⟨d, hdmem, hfd⟩ := List.mem_map.mp hen
    rw [← hfd]
    constructor
    · rw [hSS]
      exact key psent d
    · rw [hRS]
      exact key precv d
  refine ⟨?_, ?_, ?_, ?_, ?_⟩
  · rw [hmapday]
    exact List.sorted_insertionSort dayLe DS
  · rw [hmapday]
    exact ((List.perm_insertionSort dayLe DS).symm).nodup hnodupDS
  · intro d
    rw [hmapday, (List.perm_insertionSort dayLe DS).mem_iff, hmemDS d]
    constructor
    · rintro (⟨t, ht, hp, hd⟩ | ⟨t, ht, hp, hd⟩)
      · rw [hpsent] at hp
        simp only [Bool.and_eq_true, beq_iff_eq] at hp
        exact ⟨t, ht, Or.inl hp.1, hp.2.1, hp.2.2, hd⟩
      · rw [hprecv] at hp
        simp only [Bool.and_eq_true, beq_iff_eq] at hp
        exact ⟨t, ht, Or.inr hp.1, hp.2.1, hp.2.2, hd⟩
    · rintro ⟨t, ht, hor, ha, hb, hd⟩
      rcases hor with h | h
      · refine Or.inl ⟨t, ht, ?_, hd⟩
        rw [hpsent]
        simp [h, ha, hb]
      · refine Or.inr ⟨t, ht, ?_, hd⟩
        rw [hprecv]
        simp [h, ha, hb]
  · exact hentry
  · intro en hen
    have he := hentry en hen
    constructor
    · intro hzero
      rw [he.1]
      have hnil : txs.filter (fun t => (t.timestamp.dateOf == en.day) && psent t) = [] := by
        rw [List.filter_eq_nil_iff]
        intro t ht hcon
        rw [hzero t ht] at hcon
        exact Bool.false_ne_true hcon
      rw [hnil]
      rfl
    · intro hzero
      rw [he.2]
      have hnil : txs.filter (fun t => (t.timestamp.dateOf == en.day) && precv t) = [] := by
        rw [List.filter_eq_nil_iff]
        intro t ht hcon
        rw [hzero t ht] at hcon
        exact Bool.false_ne_true hcon
      rw [hnil]
      rfl

/-- C5 witness: on the three-transaction test ledger, user1's daily totals
have sorted days and the 2025-05-01 entry (sender-only activity) reports 0.0
received, via the one-sided-zero clause of the theorem. -/
theorem c5_daily_totals_witness :
    List.Sorted dayLe ((get_daily_totals "user1" none none
      [⟨"tx1", "user1", "user2", .finite 100, "USD", ⟨2025, 5, 1, 12, 0, 0⟩, .completed⟩,
       ⟨"tx2", "user2", "user1", .finite 200, "USD", ⟨2025, 5, 2, 13, 0, 0⟩, .pending⟩,
       ⟨"tx3", "user1", "user2", .finite 300, "USD", ⟨2025, 5, 2, 14, 0, 0⟩,
        .failed⟩]).map DailyTotal.day)
    ∧ (⟨(2025, 5, 1), PyFloat.finite 100, PyFloat.finite 0⟩ : DailyTotal).total_received
        = PyFloat.finite 0
    ∧ (⟨(2025, 5, 1), PyFloat.finite 100, PyFloat.finite 0⟩ : DailyTotal)
        ∈ get_daily_totals "user1" none none
          [⟨"tx1", "user1", "user2", .finite 100, "USD", ⟨2025, 5, 1, 12, 0, 0⟩, .completed⟩,
           ⟨"tx2", "user2", "user1", .finite 200, "USD", ⟨2025, 5, 2, 13, 0, 0⟩, .pending⟩,
           ⟨"tx3", "user1", "user2", .finite 300, "USD", ⟨2025, 5, 2, 14, 0, 0⟩, .failed⟩] := by
  have h := c5_daily_totals "user1" none none
    [⟨"tx1", "user1", "user2", .finite 100, "USD", ⟨2025, 5, 1, 12, 0, 0⟩, .completed⟩,
     ⟨"tx2", "user2", "user1", .finite 200, "USD", ⟨2025, 5, 2, 13, 0, 0⟩, .pending⟩,
     ⟨"tx3", "user1", "user2", .finite 300, "USD", ⟨2025, 5, 2, 14, 0, 0⟩, .failed⟩]
  refine ⟨h.1, (h.2.2.2.2 ⟨(2025, 5, 1), PyFloat.finite 100, PyFloat.finite 0⟩
    (by decide)).2 (by decide), by decide⟩
